import Mathlib

/-!
Verification of the realtime chat client core (connection lifecycle manager,
offline send queue, event bus, chat state store) against its specification.

The JavaScript source is embedded shallowly:

* JS primitive values that occur in the relevant code paths are modelled by
  `Val` (flat JSON scalars; the records handled by the merge code carry only
  scalar fields apart from the attachment collections, which are modelled
  separately).  `undefined`-valued properties cannot arise from `JSON.parse`
  and are modelled as absent fields.
* JS objects are modelled as ordered association lists `FM` (field order is
  the object's own-property order, as JS preserves it).
* Asynchronous completions (the handshake `fetch`, socket events, timers) are
  modelled as explicit step functions on an explicit connection state, each
  taking the data the corresponding closure captured (attempt id, socket id)
  as arguments.  The transport's behaviour (whether a `socket.send` call
  throws) is an oracle carried by the modelled socket.
-/

/-- A JS primitive value as it occurs in the modelled code paths
(JSON scalars: `null`, booleans, numbers, strings).  Timestamps in the data
handled by the merge code are integers, so numbers are modelled as `Int`. -/
inductive Val where
  | vnull : Val
  | vbool : Bool → Val
  | vnum : Int → Val
  | vstr : String → Val
deriving DecidableEq

/-- A JS object with flat (scalar) fields: an ordered association list. -/
abbrev FM := List (String × Val)

/-- Property lookup `obj[k]`: `none` models `undefined` (absent property). -/
def lookupFM (m : FM) (k : String) : Option Val :=
  (m.find? (fun p => p.1 == k)).map (fun p => p.2)

/-- Whether the object has the property at all (`k in obj`). -/
def hasFieldFM (m : FM) (k : String) : Bool :=
  (m.find? (fun p => p.1 == k)).isSome

/-- JS object spread `\x7b...x, ...y\x7d`: `x`'s keys in `x`'s order with `y`'s
values overriding shared keys, followed by `y`'s new keys in `y`'s order. -/
def spreadFM (x y : FM) : FM :=
  x.map (fun p => (p.1, ((lookupFM y p.1).getD p.2))) ++
    y.filter (fun p => !(hasFieldFM x p.1))

/-- `\x7b...x, k: v\x7d` — set one property. -/
def setFM (x : FM) (k : String) (v : Val) : FM :=
  spreadFM x [(k, v)]

/-- JS `String(v)` for the values of the model. -/
def valToString : Val → String
  | Val.vnull => "null"
  | Val.vbool b => if b then "true" else "false"
  | Val.vnum n => toString n
  | Val.vstr s => s

/-- JS truthiness for the values of the model. -/
def truthy : Val → Bool
  | Val.vnull => false
  | Val.vbool b => b
  | Val.vnum n => n != 0
  | Val.vstr s => s != ""

/-- JS `String.prototype.trim`, defined over the character list so that it
reduces during kernel evaluation (`String.trim` itself does not). -/
def jsTrim (s : String) : String :=
  String.mk (((s.data.dropWhile Char.isWhitespace).reverse.dropWhile
    Char.isWhitespace).reverse)

/-- JS `String.prototype.toLowerCase` over the character list, for the same
reason. -/
def jsToLower (s : String) : String :=
  String.mk (s.data.map Char.toLower)

/-- `JSON.stringify` of a scalar value. -/
def stringifyVal : Val → String
  | Val.vnull => "null"
  | Val.vbool b => if b then "true" else "false"
  | Val.vnum n => toString n
  | Val.vstr s => "\"" ++ s ++ "\""

/-- `JSON.stringify` of a flat object: fields in own-property order. -/
def stringifyFM (m : FM) : String :=
  "\x7b" ++ String.intercalate ","
    (m.map (fun p => "\"" ++ p.1 ++ "\":" ++ stringifyVal p.2)) ++ "\x7d"

/-- The value of `obj[k]` when it is neither `undefined` nor `null`
(the test used by the `??` chains and by the identity-key scans). -/
def presentNonNull (m : FM) (k : String) : Option Val :=
  match lookupFM m k with
  | some Val.vnull => none
  | some v => some v
  | none => none

/-- First key of `ks` whose value on `m` is present and non-null, as in a
`a ?? b ?? ...` chain over properties of `m`; returns that value. -/
def firstNonNull (m : FM) (ks : List String) : Option Val :=
  ks.findSome? (fun k => presentNonNull m k)

/-- First truthy value among the properties `ks` of `m`, as in a
`a || b || ...` chain over properties of `m`. -/
def firstTruthy (m : FM) (ks : List String) : Option Val :=
  ks.findSome? (fun k =>
    match lookupFM m k with
    | some v => if truthy v then some v else none
    | none => none)

/-- JS `Number(v)` restricted to the model: integers and integer-shaped
strings; `none` models `NaN` (including non-numeric strings; fractional
literals do not occur in the identity/timestamp fields the code reads). -/
def jsNumber : Val → Option Int
  | Val.vnull => some 0
  | Val.vbool b => some (if b then 1 else 0)
  | Val.vnum n => some n
  | Val.vstr s => if jsTrim s = "" then some 0 else (jsTrim s).toInt?

/-!
## Message and attachment records (src utils/messages, part_008)

A message record as handled by the merge code: its scalar fields, plus the
`attachments` array property and the singular `attachment` property, which the
code reads structurally.  `attachmentsArr` is `raw.attachments` when that
property is an array (and `[]` otherwise, matching the `Array.isArray`
guards); `attachmentSingle` is `none` when `raw.attachment` is absent or falsy
and otherwise the list the code coerces it to (`[raw.attachment]` for a single
object).  Non-object inputs, which `normalizeMessageRecord` rejects with
`null`, are not representable and are treated where relevant as skipped. -/
structure RawMsg where
  fields : FM
  attachmentsArr : List FM
  attachmentSingle : Option (List FM)
deriving DecidableEq

/-- `ATTACHMENT_ID_KEYS` (part_008). -/
def ATTACHMENT_ID_KEYS : List String :=
  ["attachment_id", "id", "uuid", "file_id", "attachmentId", "attachmentID"]

/-- `toAttachmentId` (part_008): first present, non-null value among the
ordered identity keys. -/
def toAttachmentId (a : FM) : Option Val :=
  firstNonNull a ATTACHMENT_ID_KEYS

/-- `toAttachmentKey` (part_008): `id:`-prefixed string of the identity value,
else the full-serialized-content fallback key. -/
def toAttachmentKey (a : FM) : String :=
  match toAttachmentId a with
  | none => "tmp:" ++ stringifyFM a
  | some id => "id:" ++ valToString id

/-- One step of the `Map`-building loop inside `mergeAttachmentLists`:
`map.set(key, existing ? \x7b...existing, ...attachment\x7d : \x7b...attachment\x7d)` —
a JS `Map.set` updates an existing key in place (preserving insertion order)
and otherwise appends. -/
def attAppend (m : List (String × FM)) (a : FM) : List (String × FM) :=
  let key := toAttachmentKey a
  if (m.find? (fun e => e.1 == key)).isSome then
    m.map (fun e => if e.1 == key then (e.1, spreadFM e.2 a) else e)
  else
    m ++ [(key, spreadFM [] a)]

/-- `mergeAttachmentLists` (part_008): identity-keyed union of two attachment
lists, later occurrences spread-merged onto earlier ones. -/
def mergeAttachmentLists (currentA incoming : List FM) : List FM :=
  ((currentA ++ incoming).foldl attAppend []).map (fun e => e.2)

/-- `normalizeAttachments` (part_008): union of the `attachments` array and
the coerced singular `attachment` property. -/
def normalizeAttachments (raw : RawMsg) : List FM :=
  mergeAttachmentLists raw.attachmentsArr (raw.attachmentSingle.getD [])

/-- `normalizeMessageRecord` (part_008):
`\x7b...raw, message_id, attachments: normalizeAttachments(raw)\x7d` with
`message_id` the first present non-null alias (`?? null`). -/
def normalizeMessageRecord (raw : RawMsg) : RawMsg :=
  let messageId :=
    firstNonNull raw.fields ["message_id", "id", "uuid", "messageId", "local_id"]
  { fields := setFM raw.fields "message_id" (messageId.getD Val.vnull)
    attachmentsArr := normalizeAttachments raw
    attachmentSingle := raw.attachmentSingle }

/-- The both-arguments-present branch of `mergeMessageRecords` (part_008):
`\x7b...current, ...incoming, attachments: mergeAttachmentLists(...)\x7d`. -/
def mergeRawMsg (c i : RawMsg) : RawMsg :=
  { fields := spreadFM c.fields i.fields
    attachmentsArr := mergeAttachmentLists c.attachmentsArr i.attachmentsArr
    attachmentSingle := i.attachmentSingle.orElse (fun _ => c.attachmentSingle) }

/-- `mergeMessageRecords` (part_008), including its null handling. -/
def mergeMessageRecords : Option RawMsg → Option RawMsg → Option RawMsg
  | none, none => none
  | none, some i =>
      some { fields := i.fields
             attachmentsArr := mergeAttachmentLists [] i.attachmentsArr
             attachmentSingle := i.attachmentSingle }
  | some c, none =>
      some { fields := c.fields
             attachmentsArr := mergeAttachmentLists c.attachmentsArr []
             attachmentSingle := c.attachmentSingle }
  | some c, some i => some (mergeRawMsg c i)

/-!
## Chat state store merge (part_009)
-/

/-- `toMessageKey` (part_009): identity key of a message record — an id alias,
else a timestamp+sender key, else a content-prefix key, else `null`. -/
def toMessageKey (m : RawMsg) : Option String :=
  match firstNonNull m.fields
      ["message_id", "id", "uuid", "client_uuid", "clientId", "local_id"] with
  | some found => some ("id:" ++ valToString found)
  | none =>
    match firstTruthy m.fields ["created_at", "createdAt", "timestamp", "sent_at"] with
    | some timestamp =>
        some ("ts:" ++ valToString timestamp ++ ":" ++
          valToString ((firstNonNull m.fields ["sender_id", "senderId"]).getD (Val.vstr "")))
    | none =>
      match lookupFM m.fields "content" with
      | some content =>
          if truthy content then
            some ("content:" ++ (valToString content).take 32)
          else none
      | none => none

/-- `toMessageTimestamp` (part_009).  The calendar-date fallback
(`new Date(raw).getTime()`) is abstracted to the unparsable case (0): no
claim depends on the ordering of calendar-formatted timestamps. -/
def toMessageTimestamp (m : RawMsg) : Int :=
  match firstTruthy m.fields
      ["created_at", "createdAt", "sent_at", "timestamp", "createdAtMs"] with
  | none => 0
  | some raw =>
    match jsNumber raw with
    | some numeric => numeric
    | none => 0

/-- The `append` closure inside `mergeMessageArrays` (part_009): normalize the
record, key it (with the positional `tmp:` fallback for keyless records), and
insert-or-merge into the insertion-ordered map. -/
def msgAppend (m : List (String × RawMsg)) (message : RawMsg) :
    List (String × RawMsg) :=
  let normalized := normalizeMessageRecord message
  let key := (toMessageKey normalized).getD ("tmp:" ++ toString (m.length + 1))
  if (m.find? (fun e => e.1 == key)).isSome then
    m.map (fun e => if e.1 == key then (e.1, mergeRawMsg e.2 normalized) else e)
  else
    m ++ [(key, normalized)]

/-- Stable insertion of a record into a timestamp-sorted list: placed before
the first strictly-later element, after earlier-or-equal ones. -/
def insertByTs (x : RawMsg) : List RawMsg → List RawMsg
  | [] => [x]
  | y :: ys =>
    if toMessageTimestamp x ≤ toMessageTimestamp y then x :: y :: ys
    else y :: insertByTs x ys

/-- The stable ascending sort by derived timestamp used on the merged values:
JS `Array.prototype.sort` with the numeric comparator
`(a, b) => toMessageTimestamp(a) - toMessageTimestamp(b)` is a stable sort,
modelled as stable insertion sort. -/
def sortByTs (l : List RawMsg) : List RawMsg :=
  l.foldr insertByTs []

/-- `mergeMessageArrays` (part_009): fold both lists (current first) into the
identity-keyed map, then stably sort the values by derived timestamp. -/
def mergeMessageArrays (currentList incomingList : List RawMsg) : List RawMsg :=
  let merged := ((currentList ++ incomingList).foldl msgAppend []).map (fun e => e.2)
  sortByTs merged

/-!
## Chat state store: unread accounting (part_009)

Only the state the store operations in the claims mutate is modelled:
per-chat message lists, the `lastSyncedAt` part of the chat metadata (the only
metadata field `pushLiveMessage` touches), unread counters, the active chat,
and the session identity (`currentUserId`).  JS objects used as string-keyed
dictionaries are association lists; a missing unread entry reads as 0
(`previous[chatKey] || 0`).
-/

/-- `toUserId` (part_009): `Number(value)` must be finite and positive.
The argument is the (possibly absent) property value fed to it. -/
def toUserId (value : Option Val) : Option Nat :=
  match value with
  | none => none
  | some v =>
    match jsNumber v with
    | none => none
    | some parsed => if parsed > 0 then some parsed.toNat else none

/-- Read a counter dictionary: `previous[chatKey] || 0`. -/
def getCount (m : List (String × Nat)) (k : String) : Nat :=
  ((m.find? (fun p => p.1 == k)).map (fun p => p.2)).getD 0

/-- `\x7b...previous, [chatKey]: v\x7d` on a string-keyed dictionary. -/
def setEntry {α : Type} (m : List (String × α)) (k : String) (v : α) :
    List (String × α) :=
  if (m.find? (fun p => p.1 == k)).isSome then
    m.map (fun p => if p.1 == k then (p.1, v) else p)
  else
    m ++ [(k, v)]

/-- Read a dictionary with a default. -/
def getEntry {α : Type} (m : List (String × α)) (k : String) (d : α) : α :=
  ((m.find? (fun p => p.1 == k)).map (fun p => p.2)).getD d

/-- The store state mutated by the modelled operations. -/
structure StoreState where
  messagesByChatId : List (String × List RawMsg)
  metaLastSyncedAt : List (String × Int)
  unreadByChatId : List (String × Nat)
  activeChatId : Option String
  currentUserId : Option Nat
deriving DecidableEq

/-- `pushLiveMessage(chatId, message, options)` (part_009): merge the live
message into the chat's list, refresh `lastSyncedAt`, and increment the unread
counter exactly when the chat is not active and the sender is not the local
user (unless `options.incrementUnread` overrides); when the chat is active,
force the counter to 0.  `chatKey` is the already-stringified chat id (the
null-id guard returns before this logic).  `now` is `Date.now()`. -/
def pushLiveMessage (st : StoreState) (chatKey : String) (message : RawMsg)
    (incrementUnread : Option Bool) (now : Int) : StoreState :=
  let senderId := toUserId (firstNonNull message.fields ["sender_id", "senderId"])
  let shouldIncrement :=
    incrementUnread.getD
      (decide (st.activeChatId ≠ some chatKey) && decide (senderId ≠ st.currentUserId))
  let st :=
    { st with
      messagesByChatId :=
        setEntry st.messagesByChatId chatKey
          (mergeMessageArrays (getEntry st.messagesByChatId chatKey []) [message])
      metaLastSyncedAt := setEntry st.metaLastSyncedAt chatKey now }
  if shouldIncrement then
    { st with
      unreadByChatId :=
        setEntry st.unreadByChatId chatKey (getCount st.unreadByChatId chatKey + 1) }
  else if st.activeChatId = some chatKey then
    if getCount st.unreadByChatId chatKey = 0 then st
    else { st with unreadByChatId := setEntry st.unreadByChatId chatKey 0 }
  else st

/-- `setActiveChat(chatId)` (part_009): record the active chat (stringified,
`none` for null/undefined) and zero its unread counter when non-null
(`if (!previous[chatKey]) return previous` — already-zero is a no-op). -/
def setActiveChat (st : StoreState) (chatKey : Option String) : StoreState :=
  let st := { st with activeChatId := chatKey }
  match chatKey with
  | none => st
  | some k =>
    if getCount st.unreadByChatId k = 0 then st
    else { st with unreadByChatId := setEntry st.unreadByChatId k 0 }

/-- `markChatAsRead(chatId)` (part_009): zero the chat's unread counter,
a no-op when it is already 0/absent. -/
def markChatAsRead (st : StoreState) (chatKey : String) : StoreState :=
  if getCount st.unreadByChatId chatKey = 0 then st
  else { st with unreadByChatId := setEntry st.unreadByChatId chatKey 0 }

/-!
## Realtime connection manager (sessionContext, part_011)

The provider's refs and React state are collected into one explicit
`ConnState`.  Each socket callback and each half of the async `openSocket`
(the synchronous prelude up to the `fetch`, and the continuation that runs
when the handshake settles) is a step function taking the values its closure
captured — the attempt id and socket id — as arguments.  `scheduledDelays`,
`sentLog`, `closedLog` and `invocationLog` are model-level observation logs
(appended exactly where the code performs the corresponding effect).
-/

def WEBSOCKET_READY_STATE_CONNECTING : Nat := 0

def WEBSOCKET_READY_STATE_OPEN : Nat := 1

def WEBSOCKET_READY_STATE_CLOSING : Nat := 2

def WEBSOCKET_READY_STATE_CLOSED : Nat := 3

def HEARTBEAT_INTERVAL_MS : Nat := 20000

def HEARTBEAT_TIMEOUT_MS : Nat := 10000

def RECONNECT_INITIAL_DELAY_MS : Nat := 1000

def RECONNECT_MAX_DELAY_MS : Nat := 30000

def MAX_OFFLINE_QUEUE : Nat := 100

def DEFAULT_BACKEND_BASE : String := "http://127.0.0.1:8000"

/-- `normalizeBackendBase` (part_011): trim, default, ensure an http protocol
prefix, strip trailing slashes. -/
def normalizeBackendBase (value : String) : String :=
  let base := jsTrim value
  let withProtocol :=
    if base ≠ "" then
      if (jsToLower base).startsWith "http://" || (jsToLower base).startsWith "https://" then
        base
      else "http://" ++ base
    else DEFAULT_BACKEND_BASE
  String.mk ((withProtocol.toList.reverse.dropWhile (fun c => c = '/')).reverse)

/-- `toWebSocketBase` (part_011): secure-to-secure scheme substitution. -/
def toWebSocketBase (httpBase : String) : String :=
  if httpBase.startsWith "https://" then
    "wss://" ++ httpBase.drop ("https://".length)
  else if httpBase.startsWith "http://" then
    "ws://" ++ httpBase.drop ("http://".length)
  else httpBase

/-- `encodeURIComponent`: a browser primitive, abstracted as the identity
(no claim depends on percent-encoding). -/
def encodeURIComponent (s : String) : String := s

/-- `buildWebSocketUrl` (part_011). -/
def buildWebSocketUrl (httpBase token : String) : String :=
  toWebSocketBase httpBase ++ "/websockets/connection?token=" ++ encodeURIComponent token

/-- An outbound payload as passed to `send`: a string (sent verbatim), a
JSON-serializable object, or a value `JSON.stringify` rejects. -/
inductive Payload where
  | pstr : String → Payload
  | pobj : FM → Payload
  | punser : Payload
deriving DecidableEq

/-- `toSocketMessage` (part_011): strings pass through, other payloads are
stringified; `none` models the caught serialization failure (`return null`). -/
def toSocketMessage : Payload → Option String
  | Payload.pstr s => some s
  | Payload.pobj o => some (stringifyFM o)
  | Payload.punser => none

/-- An offline-queue entry: `\x7b payload, enqueuedAt: Date.now() \x7d`. -/
structure QueueEntry where
  payload : Payload
  enqueuedAt : Int
deriving DecidableEq

/-- The modelled WebSocket: identity, `readyState`, and the oracle of
outcomes of successive `send` calls on it (`false` = the call throws;
exhausted oracle = the call succeeds). -/
structure SocketM where
  sid : Nat
  readyState : Nat
  outcomes : List Bool
deriving DecidableEq

/-- An inbound frame's parsed shape, at the depth the code inspects it:
top-level fields plus the nested `payload` property when that is an object.
`JSON.parse` results that are not objects are treated as unparsed text, which
the code handles identically for type resolution and ping-id extraction. -/
structure JPay where
  fields : FM
  payloadObj : Option FM
deriving DecidableEq

/-- An inbound wire frame: the raw text and its parsed shape (`none` when
`JSON.parse` throws). -/
structure InboundFrame where
  rawText : String
  parsed : Option JPay
deriving DecidableEq

/-- The payload of a published realtime event. -/
inductive EvPayload where
  | pnull : EvPayload
  | pobj : JPay → EvPayload
  | pstr : String → EvPayload
  | pregistration : Option FM → EvPayload
  | popen : Option FM → EvPayload
  | pclosed : Nat → String → Bool → EvPayload
  | perror : String → EvPayload
deriving DecidableEq

/-- A published realtime event (`finalEvent` in `dispatchRealtimeEvent`). -/
structure RtEvent where
  type : String
  payload : EvPayload
  raw : Option String
  receivedAt : Int
deriving DecidableEq

/-- The result object returned by `send`. -/
structure SendResult where
  ok : Bool
  queued : Bool
  error : Option String
deriving DecidableEq

/-- The realtime info published through context (`realtimeInfo`). -/
structure RtInfo where
  status : String
  isOnline : Bool
  lastError : Option String
  lastEvent : Option RtEvent
  queueLength : Nat
  latency : Option Int
  lastHeartbeatAt : Option Int
deriving DecidableEq

/-- The provider's refs and React state relevant to the modelled behaviour,
plus the observation logs. -/
structure ConnState where
  rt : RtInfo
  websocketStatus : String
  websocketError : Option String
  websocketLastMessage : Option String
  websocketRegistration : Option FM
  websocket : Option Nat
  sockRef : Option SocketM
  connectingRef : Bool
  attemptRef : Nat
  reconnectAttempts : Nat
  manualDisconnect : Bool
  mounted : Bool
  jwt : String
  browserUrl : String
  listeners : List (String × List Nat)
  offlineQueue : List QueueEntry
  reconnectTimer : Option Nat
  heartbeatInterval : Bool
  heartbeatTimeout : Bool
  lastPingTimestamp : Option Int
  socketCounter : Nat
  scheduledDelays : List Nat
  sentLog : List String
  closedLog : List (Nat × Nat × String)
  invocationLog : List (Nat × RtEvent)
deriving DecidableEq

/-- `updateRealtimeInfo` (part_011): patch the published info, a no-op after
unmount. -/
def updateRt (st : ConnState) (f : RtInfo → RtInfo) : ConnState :=
  if st.mounted then { st with rt := f st.rt } else st

/-- `clearReconnectTimeout` (part_011). -/
def clearReconnectTimeout (st : ConnState) : ConnState :=
  { st with reconnectTimer := none }

/-- `clearHeartbeatTimers` (part_011). -/
def clearHeartbeatTimers (st : ConnState) : ConnState :=
  { st with heartbeatInterval := false, heartbeatTimeout := false,
            lastPingTimestamp := none }

/-- One `socket.send(message)` call on the referenced socket: consumes the
next oracle outcome; a successful call appends to the sent log, a `false`
outcome models the call throwing. -/
def sockSendViaRef (st : ConnState) (message : String) : Bool × ConnState :=
  match st.sockRef with
  | none => (false, st)
  | some s =>
    let ok := s.outcomes.headD true
    let s' := { s with outcomes := s.outcomes.tail }
    if ok then
      (true, { st with sockRef := some s', sentLog := st.sentLog ++ [message] })
    else
      (false, { st with sockRef := some s' })

/-- Whether the referenced socket reports `readyState === OPEN`. -/
def refSockOpen (st : ConnState) : Bool :=
  match st.sockRef with
  | some s => s.readyState == WEBSOCKET_READY_STATE_OPEN
  | none => false

/-- The `while` loop of `flushOfflineQueue` (part_011): shift each item, skip
unserializable ones, send; on a send failure unshift the failed item back and
break.  Returns the remaining queue with the threaded state. -/
def flushLoop : List QueueEntry → ConnState → List QueueEntry × ConnState
  | [], st => ([], st)
  | item :: rest, st =>
    match toSocketMessage item.payload with
    | none => flushLoop rest st
    | some message =>
      match sockSendViaRef st message with
      | (true, st') => flushLoop rest st'
      | (false, st') => (item :: rest, st')

/-- `flushOfflineQueue` (part_011): no-op unless the referenced socket is
open; then drain the queue in FIFO order, stopping at the first send failure,
and publish the resulting queue length. -/
def flushOfflineQueue (st : ConnState) : ConnState :=
  if !(refSockOpen st) then st
  else if st.offlineQueue = [] then
    updateRt st (fun rt => { rt with queueLength := 0 })
  else
    let (q', st') := flushLoop st.offlineQueue st
    let st' := { st' with offlineQueue := q' }
    updateRt st' (fun rt => { rt with queueLength := q'.length })

/-- `sendRealtimeMessage` (part_011): serialize (failure returns the result
object), try an immediate send when the socket is open (a throwing send falls
through), then either refuse (`enqueue: false`) or enqueue with the
drop-oldest capacity bound. -/
def sendRealtimeMessage (st : ConnState) (payload : Payload) (enqueue : Bool)
    (now : Int) : SendResult × ConnState :=
  match toSocketMessage payload with
  | none => ({ ok := false, queued := false, error := some "serialization-error" }, st)
  | some message =>
    let attempt :=
      if refSockOpen st then
        match sockSendViaRef st message with
        | (true, st') => (some ({ ok := true, queued := false, error := none } : SendResult), st')
        | (false, st') => (none, st')
      else (none, st)
    match attempt with
    | (some res, st') => (res, st')
    | (none, st') =>
      if !enqueue then
        ({ ok := false, queued := false, error := some "socket-not-open" }, st')
      else
        let queue := st'.offlineQueue
        let queue := if queue.length ≥ MAX_OFFLINE_QUEUE then queue.tail else queue
        let queue := queue ++ [{ payload := payload, enqueuedAt := now }]
        let st' := { st' with offlineQueue := queue }
        let st' := updateRt st' (fun rt => { rt with queueLength := queue.length })
        ({ ok := false, queued := true, error := none }, st')

/-- `handlePong` (part_011): clear the heartbeat timeout, compute latency from
the recorded ping time, refresh liveness. -/
def handlePong (st : ConnState) (now : Int) : ConnState :=
  let st := { st with heartbeatTimeout := false }
  let lastPing := st.lastPingTimestamp
  let st := { st with lastPingTimestamp := none }
  let latency := lastPing.map (fun lp => max 0 (now - lp))
  updateRt st (fun rt =>
    { rt with isOnline := true, lastError := none, lastHeartbeatAt := some now,
              latency := latency.orElse (fun _ => rt.latency) })

/-- Listener sets registered for one event type. -/
def listenersFor (st : ConnState) (t : String) : List Nat :=
  getEntry st.listeners t []

/-- `dispatchRealtimeEvent` (part_011): normalize the type, record the event
as `lastEvent`, then invoke type-specific listeners followed by wildcard
listeners (each invocation is appended to the observation log; a listener
throwing is isolated by the code and does not affect the state). -/
def dispatchRealtimeEvent (st : ConnState) (event : RtEvent) : ConnState :=
  let normalizedType := if jsTrim event.type ≠ "" then jsTrim event.type else "message"
  let finalEvent : RtEvent :=
    { type := normalizedType, payload := event.payload, raw := event.raw,
      receivedAt := event.receivedAt }
  let st := updateRt st (fun rt => { rt with lastEvent := some finalEvent })
  let st :=
    { st with invocationLog :=
        st.invocationLog ++ (listenersFor st normalizedType).map (fun h => (h, finalEvent)) }
  { st with invocationLog :=
      st.invocationLog ++ (listenersFor st "*").map (fun h => (h, finalEvent)) }

/-- `subscribeToRealtime` (part_011): register a handler under the trimmed
type (empty/absent type means wildcard); a `Set` ignores re-adding. -/
def subscribeToRealtime (st : ConnState) (eventType : String) (handler : Nat) :
    ConnState :=
  let normalizedType := if jsTrim eventType ≠ "" then jsTrim eventType else "*"
  let current := listenersFor st normalizedType
  if handler ∈ current then st
  else { st with listeners := setEntry st.listeners normalizedType (current ++ [handler]) }

/-- The event-type resolution in `handleIncomingMessage` (part_011): for an
object payload, the first truthy of `type`/`event`/`action`/`kind` if it is a
non-blank string; otherwise (including non-object payloads) the trimmed raw
text when non-blank; otherwise `message`. -/
def resolveEventType (frame : InboundFrame) : String :=
  match frame.parsed with
  | some obj =>
    match firstTruthy obj.fields ["type", "event", "action", "kind"] with
    | some (Val.vstr s) => if jsTrim s ≠ "" then jsTrim s else "message"
    | some _ => "message"
    | none => "message"
  | none => if jsTrim frame.rawText ≠ "" then jsTrim frame.rawText else "message"

/-- The ping-id extraction in `handleIncomingMessage` (part_011):
`parsedPayload?.ping_id ?? ...pingId ?? ...payload?.ping_id ?? ...payload?.pingId ?? null`. -/
def extractPingId (frame : InboundFrame) : Option Val :=
  match frame.parsed with
  | some obj =>
    (firstNonNull obj.fields ["ping_id", "pingId"]).orElse (fun _ =>
      match obj.payloadObj with
      | some p => firstNonNull p ["ping_id", "pingId"]
      | none => none)
  | none => none

/-- The pong answer
`\x7b type: 'system.pong', ping_id: pingId || undefined, client_timestamp \x7d`:
a falsy ping id becomes `undefined` and is dropped by `JSON.stringify`. -/
def pongAnswerFM (pingId : Option Val) (now : Int) : FM :=
  [("type", Val.vstr "system.pong")] ++
    (match pingId with
     | some v => if truthy v then [("ping_id", v)] else []
     | none => []) ++
    [("client_timestamp", Val.vnum now)]

/-- The event payload forwarded for an inbound frame: the parsed object, or
the raw text when parsing failed. -/
def inboundEvPayload (frame : InboundFrame) : EvPayload :=
  match frame.parsed with
  | some obj => EvPayload.pobj obj
  | none => EvPayload.pstr frame.rawText

/-- `handleIncomingMessage` (part_011): record the raw frame, resolve the
event type, intercept pong (heartbeat bookkeeping) and ping (immediate
non-enqueued pong answer), then dispatch the event on the bus. -/
def handleIncomingMessage (st : ConnState) (frame : InboundFrame) (now : Int) :
    ConnState :=
  if !st.mounted then st
  else
    let st := { st with websocketLastMessage := some frame.rawText }
    let eventType := resolveEventType frame
    let eventTypeLower := jsToLower eventType
    let st :=
      if eventTypeLower = "pong" ∨ eventTypeLower = "system.pong" then
        handlePong st now
      else if eventTypeLower = "ping" ∨ eventTypeLower = "system.ping" then
        (sendRealtimeMessage st (Payload.pobj (pongAnswerFM (extractPingId frame) now))
          false now).2
      else st
    dispatchRealtimeEvent st
      { type := eventType, payload := inboundEvPayload frame,
        raw := some frame.rawText, receivedAt := now }

/-- The `sendPing` closure inside `startHeartbeat` (part_011): only acts when
the referenced socket is still the captured one and open; records the ping
time, sends the ping frame, and (re)arms the pong timeout on success. -/
def sendPing (sid : Nat) (now : Int) (st : ConnState) : ConnState :=
  match st.sockRef with
  | none => st
  | some cur =>
    if cur.sid = sid ∧ cur.readyState = WEBSOCKET_READY_STATE_OPEN then
      let st := { st with lastPingTimestamp := some now }
      match sockSendViaRef st (stringifyFM [("type", Val.vstr "ping"), ("ts", Val.vnum now)]) with
      | (true, st') => { st' with heartbeatTimeout := true }
      | (false, st') => st'
    else st

/-- `startHeartbeat(socket)` (part_011): clear existing heartbeat timers,
require the socket open, send an immediate ping and arm the interval.  The
argument socket is identified by id; its open check reads the referenced
socket (in the modelled call sites the argument is the referenced socket). -/
def startHeartbeat (sid : Nat) (now : Int) (st : ConnState) : ConnState :=
  let st := clearHeartbeatTimers st
  let argOpen : Bool :=
    match st.sockRef with
    | some s => s.sid == sid && s.readyState == WEBSOCKET_READY_STATE_OPEN
    | none => false
  if argOpen then
    let st := sendPing sid now st
    { st with heartbeatInterval := true }
  else st

/-- `scheduleReconnect(reason, retryFn)` (part_011): guarded by the
manual-disconnect flag, the credential and the single-pending-timer rule;
increments the attempt counter, computes the exponential backoff delay,
publishes `reconnecting`, and arms the timer.  The armed timer carries its
delay; the delay is also appended to the observation log. -/
def scheduleReconnect (reason : Option String) (st : ConnState) : ConnState :=
  if st.manualDisconnect ∨ st.jwt = "" then st
  else if st.reconnectTimer.isSome then st
  else
    let attemptNumber := st.reconnectAttempts + 1
    let delay :=
      min RECONNECT_MAX_DELAY_MS
        (RECONNECT_INITIAL_DELAY_MS * 2 ^ (Nat.max 0 (attemptNumber - 1)))
    let st := { st with reconnectAttempts := attemptNumber }
    let st := updateRt st (fun rt =>
      { rt with status := "reconnecting", isOnline := false,
                lastError := reason.orElse (fun _ => rt.lastError) })
    { st with reconnectTimer := some delay,
              scheduledDelays := st.scheduledDelays ++ [delay] }

/-- How `openSocket`'s synchronous prelude exits. -/
inductive BeginKind where
  | noToken : BeginKind
  | existingSocket : Nat → BeginKind
  | alreadyConnecting : BeginKind
  | proceed : Nat → BeginKind
deriving DecidableEq

/-- The synchronous prelude of `openSocket(\x7b manual \x7d)` (part_011), up to
the handshake `fetch`: credential check, reuse of an open/connecting socket,
the connecting-flag gate, allocation of the new attempt id, the manual resets,
and the `registering` status updates.  (The server-side-rendering branch —
`window.WebSocket` absent — is outside the modelled browser environment.) -/
def openSocketBegin (manual : Bool) (st : ConnState) : BeginKind × ConnState :=
  let token := jsTrim st.jwt
  if token = "" then
    let message := "No hay token disponible para abrir el WebSocket"
    let st :=
      if st.mounted then
        let st := { st with websocketError := some message, websocketStatus := "idle" }
        updateRt st (fun rt =>
          { rt with status := "idle", isOnline := false, lastError := some message })
      else st
    (BeginKind.noToken, st)
  else
    let existingLive :=
      match st.sockRef with
      | some s => s.readyState == WEBSOCKET_READY_STATE_OPEN ||
          s.readyState == WEBSOCKET_READY_STATE_CONNECTING
      | none => false
    if existingLive then
      (BeginKind.existingSocket ((st.sockRef.map (fun s => s.sid)).getD 0), st)
    else if st.connectingRef then
      (BeginKind.alreadyConnecting, st)
    else
      let attemptId := st.attemptRef + 1
      let st := { st with connectingRef := true, attemptRef := attemptId }
      let st :=
        if manual then { st with reconnectAttempts := 0, manualDisconnect := false }
        else st
      let st := clearReconnectTimeout st
      let st :=
        if st.mounted ∧ st.attemptRef = attemptId then
          let st := { st with websocketError := none, websocketStatus := "registering",
                              websocketLastMessage := none }
          updateRt st (fun rt => { rt with status := "registering", lastError := none })
        else st
      (BeginKind.proceed attemptId, st)

/-- How the handshake `fetch` settles: a 2xx response with its parsed JSON
body and the transport behaviour of the socket that will be constructed; a
non-2xx response with its parsed body; or the fetch rejecting. -/
inductive HandshakeOutcome where
  | success : Option FM → List Bool → HandshakeOutcome
  | httpFail : Nat → Option FM → HandshakeOutcome
  | netError : String → HandshakeOutcome
deriving DecidableEq

/-- The `catch` block of `openSocket` (part_011) followed by the `finally`:
records the error and publishes `connection.error` when this attempt is still
current, schedules a reconnect (note: this call is not attempt-guarded in the
code), and re-throws. -/
def openSocketCatch (attemptId : Nat) (message : String) (now : Int)
    (st : ConnState) : ConnState × Except String (Option Nat) :=
  let st :=
    if st.mounted ∧ st.attemptRef = attemptId then
      let st := { st with websocketError := some message, websocketStatus := "error",
                          websocket := none, sockRef := none,
                          websocketRegistration := none }
      let st := updateRt st (fun rt =>
        { rt with status := "error", isOnline := false, lastError := some message })
      dispatchRealtimeEvent st
        { type := "connection.error", payload := EvPayload.perror message,
          raw := none, receivedAt := now }
    else st
  let st := scheduleReconnect (some message) st
  let st :=
    if st.attemptRef = attemptId then { st with connectingRef := false } else st
  (st, Except.error message)

/-- The error detail thrown for a non-2xx handshake response:
`(payload && (payload.detail || payload.message)) || default`. -/
def handshakeFailDetail (status : Nat) (registrationPayload : Option FM) : String :=
  match registrationPayload with
  | some p =>
    match firstTruthy p ["detail", "message"] with
    | some v => valToString v
    | none => "Error al registrar la conexión (HTTP " ++ toString status ++ ")"
  | none => "Error al registrar la conexión (HTTP " ++ toString status ++ ")"

/-- The continuation of `openSocket` (part_011) that runs when the handshake
`fetch` settles, through the `finally` block.  On success: the guarded
registration/`connecting` updates and `connection.registered` event, then —
unconditionally — construction of the WebSocket and assignment of
`websocketRef.current`, then the guarded React-state assignment; the socket's
callbacks are the separate `cb*` step functions invoked with this attempt id
and socket id.  On failure: the `catch` path, which re-throws (the returned
`Except.error`). -/
def openSocketHandshake (attemptId : Nat) (outcome : HandshakeOutcome)
    (now : Int) (st : ConnState) : ConnState × Except String (Option Nat) :=
  match outcome with
  | HandshakeOutcome.success registrationPayload sockOutcomes =>
    let st :=
      if st.mounted ∧ st.attemptRef = attemptId then
        let st := { st with websocketRegistration := registrationPayload,
                            websocketStatus := "connecting" }
        let st := updateRt st (fun rt => { rt with status := "connecting" })
        dispatchRealtimeEvent st
          { type := "connection.registered",
            payload := EvPayload.pregistration registrationPayload,
            raw := none, receivedAt := now }
      else st
    let sid := st.socketCounter + 1
    let st := { st with socketCounter := sid,
                        sockRef := some { sid := sid,
                                          readyState := WEBSOCKET_READY_STATE_CONNECTING,
                                          outcomes := sockOutcomes } }
    let st :=
      if st.mounted ∧ st.attemptRef = attemptId then { st with websocket := some sid }
      else st
    let st :=
      if st.attemptRef = attemptId then { st with connectingRef := false } else st
    (st, Except.ok (some sid))
  | HandshakeOutcome.httpFail status registrationPayload =>
    openSocketCatch attemptId (handshakeFailDetail status registrationPayload) now st
  | HandshakeOutcome.netError msg =>
    let message :=
      if msg ≠ "" then msg else "No fue posible establecer la conexión WebSocket"
    openSocketCatch attemptId message now st

/-- Set the referenced socket's `readyState` when it is the given socket
(the transport-level transition that precedes the corresponding handler). -/
def setRefReadyState (st : ConnState) (sid : Nat) (v : Nat) : ConnState :=
  match st.sockRef with
  | some s => if s.sid = sid then { st with sockRef := some { s with readyState := v } }
              else st
  | none => st

/-- `socket.onopen` (part_011).  A stale or unmounted attempt closes the
socket (normal-closure code) and leaves the state untouched; a current
attempt publishes `open`, resets the backoff counter and the manual flag,
starts the heartbeat, flushes the queue, and publishes `connection.open`.
The transport has just transitioned the socket to OPEN. -/
def cbOpen (attemptId sid : Nat) (registrationPayload : Option FM) (now : Int)
    (st : ConnState) : ConnState :=
  let st := setRefReadyState st sid WEBSOCKET_READY_STATE_OPEN
  if !st.mounted ∨ st.attemptRef ≠ attemptId then
    let st := setRefReadyState st sid WEBSOCKET_READY_STATE_CLOSED
    { st with closedLog :=
        st.closedLog ++ [(sid, 1000, "Intento de conexión WebSocket obsoleto")] }
  else
    let st := { st with connectingRef := false, reconnectAttempts := 0,
                        manualDisconnect := false, websocketStatus := "open" }
    let st := updateRt st (fun rt =>
      { rt with status := "open", isOnline := true, lastError := none })
    let st := startHeartbeat sid now st
    let st := flushOfflineQueue st
    dispatchRealtimeEvent st
      { type := "connection.open", payload := EvPayload.popen registrationPayload,
        raw := none, receivedAt := now }

/-- `socket.onmessage` (part_011): fenced by the attempt id. -/
def cbMessage (attemptId : Nat) (frame : InboundFrame) (now : Int)
    (st : ConnState) : ConnState :=
  if !st.mounted ∨ st.attemptRef ≠ attemptId then st
  else handleIncomingMessage st frame now

/-- `socket.onerror` (part_011): fenced by the attempt id; records the error
and publishes `connection.error`. -/
def cbError (attemptId : Nat) (now : Int) (st : ConnState) : ConnState :=
  if !st.mounted ∨ st.attemptRef ≠ attemptId then st
  else
    let message := "Ocurrió un error en la conexión WebSocket"
    let st := { st with websocketError := some message, websocketStatus := "error" }
    let st := updateRt st (fun rt =>
      { rt with status := "error", isOnline := false, lastError := some message })
    dispatchRealtimeEvent st
      { type := "connection.error", payload := EvPayload.perror message,
        raw := none, receivedAt := now }

/-- `socket.onclose` (part_011): fenced by the attempt id; clears heartbeat
timers, derives the close reason, records non-clean closures, clears the
socket references, publishes `connection.closed`, and either settles to
`idle` (manual disconnect) or to `closed` plus a scheduled reconnect. -/
def cbClose (attemptId : Nat) (code : Nat) (reasonArg : String) (wasClean : Bool)
    (now : Int) (st : ConnState) : ConnState :=
  if !st.mounted ∨ st.attemptRef ≠ attemptId then st
  else
    let st := clearHeartbeatTimers st
    let reason :=
      if reasonArg ≠ "" then reasonArg
      else if code = 1000 then "Conexión WebSocket cerrada"
      else "Conexión WebSocket cerrada (código " ++ toString code ++ ")"
    let st :=
      if code ≠ 1000 ∨ !wasClean then { st with websocketError := some reason }
      else st
    let st := { st with websocket := none, sockRef := none,
                        websocketRegistration := none }
    let st := dispatchRealtimeEvent st
      { type := "connection.closed", payload := EvPayload.pclosed code reason wasClean,
        raw := none, receivedAt := now }
    if st.manualDisconnect then
      let st := { st with manualDisconnect := false, websocketStatus := "idle" }
      updateRt st (fun rt =>
        { rt with status := "idle", isOnline := false, lastError := none })
    else
      let st := { st with websocketStatus := "closed" }
      let st := updateRt st (fun rt =>
        { rt with status := "closed", isOnline := false, lastError := some reason })
      scheduleReconnect (some reason) st

/-- `disconnectWebsocket` (part_011): sets the manual flag, advances the
attempt id (fencing every outstanding callback), cancels timers, detaches the
handlers and closes a live socket, clears the queue, and resets to `idle`;
with no socket to close the manual flag is reset immediately. -/
def disconnectWebsocket (st : ConnState) : ConnState :=
  let st := { st with manualDisconnect := true, attemptRef := st.attemptRef + 1,
                      connectingRef := false, reconnectAttempts := 0 }
  let st := clearReconnectTimeout st
  let st := clearHeartbeatTimers st
  let socket := st.sockRef
  let st := { st with sockRef := none }
  let st :=
    match socket with
    | some s =>
      if s.readyState = WEBSOCKET_READY_STATE_CONNECTING ∨
          s.readyState = WEBSOCKET_READY_STATE_OPEN then
        { st with closedLog := st.closedLog ++ [(s.sid, 1000, "Client closing connection")] }
      else st
    | none => { st with manualDisconnect := false }
  let st := { st with offlineQueue := [] }
  if st.mounted then
    let st := { st with websocket := none, websocketStatus := "idle",
                        websocketError := none, websocketLastMessage := none,
                        websocketRegistration := none }
    updateRt st (fun rt =>
      { rt with status := "idle", isOnline := false, lastError := none,
                queueLength := 0, lastHeartbeatAt := none, latency := none })
  else st

/-- A freshly mounted provider state with the given credential: the initial
values of the refs and React state in the source. -/
def initConnState (jwt : String) : ConnState :=
  { rt := { status := "idle", isOnline := false, lastError := none, lastEvent := none,
            queueLength := 0, latency := none, lastHeartbeatAt := none }
    websocketStatus := "idle", websocketError := none, websocketLastMessage := none
    websocketRegistration := none, websocket := none, sockRef := none
    connectingRef := false, attemptRef := 0, reconnectAttempts := 0
    manualDisconnect := false, mounted := true, jwt := jwt, browserUrl := ""
    listeners := [], offlineQueue := [], reconnectTimer := none
    heartbeatInterval := false, heartbeatTimeout := false, lastPingTimestamp := none
    socketCounter := 0, scheduledDelays := [], sentLog := [], closedLog := []
    invocationLog := [] }

/-!
## Shared lemmas about the object and dictionary model
-/

theorem spreadFM_nil_left (y : FM) : spreadFM [] y = y := by
  simp [spreadFM, hasFieldFM, lookupFM, List.filter_eq_self]

theorem find?_eq_of_nodup_keys {β : Type} (l : List (String × β)) (e : String × β)
    (hnd : (l.map Prod.fst).Nodup) (he : e ∈ l) :
    l.find? (fun p => p.1 == e.1) = some e := by
  induction l with
  | nil => cases he
  | cons q rest ih =>
    rcases List.mem_cons.mp he with he1 | he2
    · subst he1
      simp [List.find?]
    · have hq : q.1 ≠ e.1 := by
        intro h
        rw [List.map_cons, List.nodup_cons] at hnd
        exact hnd.1 (h ▸ List.mem_map_of_mem Prod.fst he2)
      have hrest : (rest.map Prod.fst).Nodup := by
        rw [List.map_cons, List.nodup_cons] at hnd
        exact hnd.2
      simp only [List.find?]
      rw [show (q.1 == e.1) = false from beq_eq_false_iff_ne.mpr hq]
      exact ih hrest he2

theorem lookupFM_self (x : FM) (p : String × Val)
    (hnd : (x.map Prod.fst).Nodup) (hp : p ∈ x) :
    lookupFM x p.1 = some p.2 := by
  unfold lookupFM
  rw [find?_eq_of_nodup_keys x p hnd hp]
  rfl

theorem spreadFM_self (x : FM) (hnd : (x.map Prod.fst).Nodup) :
    spreadFM x x = x := by
  unfold spreadFM
  have h1 : x.map (fun p => (p.1, ((lookupFM x p.1).getD p.2))) = x := by
    have := List.map_congr_left (l := x)
      (f := fun p : String × Val => (p.1, ((lookupFM x p.1).getD p.2))) (g := id)
      (fun p hp => by simp only [lookupFM_self x p hnd hp, Option.getD_some, id])
    rw [this, List.map_id]
  have h2 : x.filter (fun p => !(hasFieldFM x p.1)) = [] := by
    apply List.filter_eq_nil_iff.mpr
    intro p hp
    have : (x.find? (fun q => q.1 == p.1)).isSome := by
      rw [find?_eq_of_nodup_keys x p hnd hp]
      rfl
    simp [hasFieldFM, this]
  rw [h1, h2, List.append_nil]

theorem getCount_setEntry_self (m : List (String × Nat)) (k : String) (v : Nat) :
    getCount (setEntry m k v) k = v := by
  unfold setEntry
  by_cases h : (m.find? (fun p => p.1 == k)).isSome
  · rw [if_pos h]
    induction m with
    | nil => simp [List.find?] at h
    | cons q rest ih =>
      by_cases hq : q.1 = k
      · simp [getCount, List.find?, hq]
      · have hqb : (q.1 == k) = false := beq_eq_false_iff_ne.mpr hq
        simp only [List.find?, hqb] at h
        simp only [List.map_cons, hqb, if_neg (by simp [hqb] : ¬(q.1 == k) = true)]
        simpa [getCount, List.find?, hqb] using ih h
  · rw [if_neg h]
    induction m with
    | nil => simp [getCount, List.find?]
    | cons q rest ih =>
      by_cases hq : q.1 = k
      · exact absurd (by simp [List.find?, hq]) h
      · have hqb : (q.1 == k) = false := beq_eq_false_iff_ne.mpr hq
        simp only [List.find?, hqb] at h
        simpa [getCount, List.find?, hqb] using ih h

/-!
## C9 — attachment union on identity collision
-/

/-- C9: when two message records share an identity key and each carries a
single attachment whose attachment key differs from the other's, the merged
record's attachment list contains exactly both attachments, once each, in
order — the lists are unioned by attachment identity, not replaced. -/
theorem attachment_union_on_identity_collision
    (r1 r2 : RawMsg) (a b : FM)
    (hkey : toMessageKey (normalizeMessageRecord r1) =
      toMessageKey (normalizeMessageRecord r2))
    (h1 : r1.attachmentsArr = [a]) (h2 : r2.attachmentsArr = [b])
    (hab : toAttachmentKey a ≠ toAttachmentKey b) :
    (mergeRawMsg r1 r2).attachmentsArr = [a, b] := by
  have habb : (toAttachmentKey a == toAttachmentKey b) = false :=
    beq_eq_false_iff_ne.mpr hab
  unfold mergeRawMsg mergeAttachmentLists
  rw [h1, h2]
  simp [attAppend, List.find?, spreadFM_nil_left, habb]

/-- Witness for C9 at concrete records sharing the key `id:1`, with disjoint
`uuid`-keyed attachments. -/
theorem attachment_union_on_identity_collision_witness :
    toMessageKey (normalizeMessageRecord
        ⟨[("message_id", Val.vnum 1)], [[("uuid", Val.vstr "u1")]], none⟩) =
      toMessageKey (normalizeMessageRecord
        ⟨[("message_id", Val.vnum 1)], [[("uuid", Val.vstr "u2")]], none⟩) ∧
    toAttachmentKey [("uuid", Val.vstr "u1")] ≠ toAttachmentKey [("uuid", Val.vstr "u2")] ∧
    (mergeRawMsg ⟨[("message_id", Val.vnum 1)], [[("uuid", Val.vstr "u1")]], none⟩
        ⟨[("message_id", Val.vnum 1)], [[("uuid", Val.vstr "u2")]], none⟩).attachmentsArr =
      [[("uuid", Val.vstr "u1")], [("uuid", Val.vstr "u2")]] :=
  ⟨by decide, by decide,
    attachment_union_on_identity_collision
      ⟨[("message_id", Val.vnum 1)], [[("uuid", Val.vstr "u1")]], none⟩
      ⟨[("message_id", Val.vnum 1)], [[("uuid", Val.vstr "u2")]], none⟩
      [("uuid", Val.vstr "u1")] [("uuid", Val.vstr "u2")]
      (by decide) rfl rfl (by decide)⟩

/-!
## C7 — unread accounting
-/

theorem pushLive_unread_char (st : StoreState) (ck : String) (msg : RawMsg)
    (now : Int) :
    (pushLiveMessage st ck msg none now).unreadByChatId =
      if st.activeChatId ≠ some ck ∧
          toUserId (firstNonNull msg.fields ["sender_id", "senderId"]) ≠
            st.currentUserId then
        setEntry st.unreadByChatId ck (getCount st.unreadByChatId ck + 1)
      else if st.activeChatId = some ck ∧ getCount st.unreadByChatId ck ≠ 0 then
        setEntry st.unreadByChatId ck 0
      else st.unreadByChatId := by
  by_cases h1 : st.activeChatId ≠ some ck ∧
      toUserId (firstNonNull msg.fields ["sender_id", "senderId"]) ≠ st.currentUserId
  · have hb : (decide (st.activeChatId ≠ some ck) &&
        decide (toUserId (firstNonNull msg.fields ["sender_id", "senderId"]) ≠
          st.currentUserId)) = true := by
      simp [h1.1, h1.2]
    rw [if_pos h1]
    simp only [pushLiveMessage, Option.getD_none, hb, if_true]
  · have hb : (decide (st.activeChatId ≠ some ck) &&
        decide (toUserId (firstNonNull msg.fields ["sender_id", "senderId"]) ≠
          st.currentUserId)) = false := by
      rcases not_and_or.mp h1 with h | h
      · simp [not_not.mp h]
      · simp [not_not.mp h]
    rw [if_neg h1]
    by_cases h2 : st.activeChatId = some ck
    · by_cases h3 : getCount st.unreadByChatId ck = 0
      · rw [if_neg (by intro hc; exact hc.2 h3)]
        simp only [pushLiveMessage, Option.getD_none, hb, Bool.false_eq_true,
          if_false, if_pos h2, if_pos h3]
      · rw [if_pos ⟨h2, h3⟩]
        simp only [pushLiveMessage, Option.getD_none, hb, Bool.false_eq_true,
          if_false, if_pos h2, if_neg h3]
    · rw [if_neg (by intro hc; exact h2 hc.1)]
      simp only [pushLiveMessage, Option.getD_none, hb, Bool.false_eq_true,
        if_false, if_neg h2]

/-- C7: `pushLiveMessage` increments the chat's unread counter by exactly 1
iff the chat is not active and the sender is not the local user; when the
chat is active the counter reads 0 afterwards; otherwise it is unchanged.
The second conjunct is the specified scenario: chat `X` inactive at 0, a live
message from another user sets it to 1, `setActiveChat X` resets it to 0, and
a further live message from another user while `X` is active leaves it at 0. -/
theorem unread_accounting_pushLiveMessage :
    (∀ (st : StoreState) (chatKey : String) (message : RawMsg) (now : Int),
      getCount (pushLiveMessage st chatKey message none now).unreadByChatId chatKey =
        (if st.activeChatId ≠ some chatKey ∧
            toUserId (firstNonNull message.fields ["sender_id", "senderId"]) ≠
              st.currentUserId
         then getCount st.unreadByChatId chatKey + 1
         else if st.activeChatId = some chatKey then 0
         else getCount st.unreadByChatId chatKey)) ∧
    (let st0 : StoreState :=
      { messagesByChatId := [], metaLastSyncedAt := [], unreadByChatId := [],
        activeChatId := none, currentUserId := some 1 }
     let m1 : RawMsg :=
      ⟨[("message_id", Val.vnum 10), ("sender_id", Val.vnum 2),
        ("content", Val.vstr "hola"), ("created_at", Val.vnum 5)], [], none⟩
     let m2 : RawMsg :=
      ⟨[("message_id", Val.vnum 11), ("sender_id", Val.vnum 2),
        ("content", Val.vstr "otra"), ("created_at", Val.vnum 6)], [], none⟩
     let s1 := pushLiveMessage st0 "X" m1 none 100
     let s2 := setActiveChat s1 (some "X")
     let s3 := pushLiveMessage s2 "X" m2 none 200
     getCount st0.unreadByChatId "X" = 0 ∧
     getCount s1.unreadByChatId "X" = 1 ∧
     getCount s2.unreadByChatId "X" = 0 ∧
     getCount s3.unreadByChatId "X" = 0) := by
  constructor
  · intro st chatKey message now
    rw [pushLive_unread_char]
    by_cases h1 : st.activeChatId ≠ some chatKey ∧
        toUserId (firstNonNull message.fields ["sender_id", "senderId"]) ≠
          st.currentUserId
    · rw [if_pos h1, if_pos h1, getCount_setEntry_self]
    · rw [if_neg h1, if_neg h1]
      by_cases h2 : st.activeChatId = some chatKey
      · rw [if_pos h2]
        by_cases h3 : getCount st.unreadByChatId chatKey = 0
        · rw [if_neg (by intro hc; exact hc.2 h3)]
          exact h3
        · rw [if_pos ⟨h2, h3⟩, getCount_setEntry_self]
      · rw [if_neg h2, if_neg (by intro hc; exact h2 hc.1)]
  · decide

/-!
## C3 — offline queue bound with drop-oldest, and C10 — transport-throw fallback
-/

/-- The effect of one enqueuing `send` while the transport is not open:
the new entry is appended, after dropping the oldest entry when the queue is
at capacity; the socket reference is untouched. -/
theorem send_enqueue_step (s : ConnState) (p : Payload) (m : String) (now : Int)
    (hopen : refSockOpen s = false) (hm : toSocketMessage p = some m) :
    (sendRealtimeMessage s p true now).2.offlineQueue =
      (if s.offlineQueue.length ≥ MAX_OFFLINE_QUEUE then s.offlineQueue.tail
       else s.offlineQueue) ++ [{ payload := p, enqueuedAt := now }] ∧
    (sendRealtimeMessage s p true now).2.sockRef = s.sockRef := by
  unfold sendRealtimeMessage
  rw [hm]
  simp only [hopen, Bool.false_eq_true, if_false, Bool.not_true]
  by_cases hcap : s.offlineQueue.length ≥ MAX_OFFLINE_QUEUE
  · simp only [if_pos hcap, updateRt]
    by_cases hmt : s.mounted <;> simp [hmt]
  · simp only [if_neg hcap, updateRt]
    by_cases hmt : s.mounted <;> simp [hmt]

/-- A sequence of `send(payload, \x7b enqueue: true \x7d)` calls, each with its
`Date.now()` value. -/
def sendSeq (st : ConnState) (ps : List (Payload × Int)) : ConnState :=
  ps.foldl (fun s pi => (sendRealtimeMessage s pi.1 true pi.2).2) st

theorem sendSeq_queue (ps : List (Payload × Int)) :
    ∀ (s : ConnState), refSockOpen s = false →
      (∀ pi ∈ ps, (toSocketMessage pi.1).isSome) →
      s.offlineQueue.length ≤ MAX_OFFLINE_QUEUE →
      (sendSeq s ps).offlineQueue =
        (s.offlineQueue ++
          ps.map (fun pi => ({ payload := pi.1, enqueuedAt := pi.2 } : QueueEntry))).drop
          (s.offlineQueue.length + ps.length - MAX_OFFLINE_QUEUE) := by
  have hMpos : 1 ≤ MAX_OFFLINE_QUEUE := by decide
  induction ps with
  | nil =>
    intro s _ _ hlen
    simp only [sendSeq, List.foldl_nil, List.map_nil, List.append_nil,
      List.length_nil, Nat.add_zero]
    rw [Nat.sub_eq_zero_of_le hlen, List.drop_zero]
  | cons p rest ih =>
    intro s hopen hser hlen
    obtain ⟨m, hm⟩ := Option.isSome_iff_exists.mp (hser p (List.mem_cons_self p rest))
    have hstep := send_enqueue_step s p.1 m p.2 hopen hm
    have hseq : sendSeq s (p :: rest) =
        sendSeq ((sendRealtimeMessage s p.1 true p.2).2) rest := rfl
    set s' := (sendRealtimeMessage s p.1 true p.2).2 with hs'
    have hopen' : refSockOpen s' = false := by
      unfold refSockOpen
      rw [hstep.2]
      exact hopen
    by_cases hcap : s.offlineQueue.length ≥ MAX_OFFLINE_QUEUE
    · have hlen100 : s.offlineQueue.length = MAX_OFFLINE_QUEUE :=
        Nat.le_antisymm hlen hcap
      have hq' : s'.offlineQueue =
          s.offlineQueue.tail ++ [{ payload := p.1, enqueuedAt := p.2 }] := by
        rw [hstep.1, if_pos hcap]
      have hqne : s.offlineQueue ≠ [] := by
        intro hnil
        rw [hnil] at hlen100
        simp only [List.length_nil] at hlen100
        omega
      obtain ⟨hd, tl, hqcons⟩ := List.exists_cons_of_ne_nil hqne
      have hlen' : s'.offlineQueue.length ≤ MAX_OFFLINE_QUEUE := by
        rw [hq', List.length_append, List.length_tail, hlen100]
        simp only [List.length_cons, List.length_nil]
        omega
      have hrec := ih s' hopen' (fun pi hpi => hser pi (List.mem_cons_of_mem p hpi)) hlen'
      rw [hseq, hrec, hq']
      rw [List.length_append, List.length_tail, hlen100]
      have hamt1 : MAX_OFFLINE_QUEUE - 1 +
          List.length [({ payload := p.1, enqueuedAt := p.2 } : QueueEntry)] +
          rest.length - MAX_OFFLINE_QUEUE = rest.length := by
        simp only [List.length_cons, List.length_nil]
        omega
      have hamt2 : MAX_OFFLINE_QUEUE + (p :: rest).length - MAX_OFFLINE_QUEUE =
          rest.length + 1 := by
        simp only [List.length_cons]
        omega
      rw [hamt1, hamt2, hqcons]
      simp only [List.tail_cons, List.map_cons, List.cons_append, List.nil_append,
        List.append_assoc, List.singleton_append, List.drop_succ_cons]
    · have hq' : s'.offlineQueue =
          s.offlineQueue ++ [{ payload := p.1, enqueuedAt := p.2 }] := by
        rw [hstep.1, if_neg hcap]
      have hlen' : s'.offlineQueue.length ≤ MAX_OFFLINE_QUEUE := by
        rw [hq', List.length_append]
        simp only [List.length_cons, List.length_nil]
        omega
      have hrec := ih s' hopen' (fun pi hpi => hser pi (List.mem_cons_of_mem p hpi)) hlen'
      rw [hseq, hrec, hq']
      rw [List.length_append]
      have hamt : s.offlineQueue.length +
          List.length [({ payload := p.1, enqueuedAt := p.2 } : QueueEntry)] +
          rest.length - MAX_OFFLINE_QUEUE =
          s.offlineQueue.length + (p :: rest).length - MAX_OFFLINE_QUEUE := by
        simp only [List.length_cons, List.length_nil]
        omega
      rw [hamt]
      simp only [List.map_cons, List.cons_append, List.append_assoc,
        List.singleton_append, List.nil_append]

/-- C3: after more than `MAX_OFFLINE_QUEUE` (100) enqueuing `send` calls while
the transport is not open (starting from any queue within capacity), the
offline queue holds exactly the 100 most recently enqueued entries in their
original relative order; and on each overflow it is the oldest entry, never
the newest, that is dropped (second conjunct). -/
theorem offline_queue_bound_drop_oldest
    (st : ConnState) (ps : List (Payload × Int))
    (hopen : refSockOpen st = false)
    (hser : ∀ pi ∈ ps, (toSocketMessage pi.1).isSome)
    (hlen : st.offlineQueue.length ≤ MAX_OFFLINE_QUEUE)
    (hn : ps.length > MAX_OFFLINE_QUEUE) :
    (sendSeq st ps).offlineQueue =
      (ps.map (fun pi => ({ payload := pi.1, enqueuedAt := pi.2 } : QueueEntry))).drop
        (ps.length - MAX_OFFLINE_QUEUE) ∧
    (∀ (s : ConnState) (p : Payload) (m : String) (now : Int),
      refSockOpen s = false → toSocketMessage p = some m →
      s.offlineQueue.length = MAX_OFFLINE_QUEUE →
      (sendRealtimeMessage s p true now).2.offlineQueue =
        s.offlineQueue.tail ++ [{ payload := p, enqueuedAt := now }]) := by
  constructor
  · rw [sendSeq_queue ps st hopen hser hlen]
    have hamt : st.offlineQueue.length + ps.length - MAX_OFFLINE_QUEUE =
        st.offlineQueue.length + (ps.length - MAX_OFFLINE_QUEUE) := by omega
    rw [hamt, ← List.drop_drop, List.drop_left]
  · intro s p m now hopen' hm hfull
    rw [(send_enqueue_step s p m now hopen' hm).1, if_pos (le_of_eq hfull.symm)]

/-- Witness for C3: 101 string sends on a fresh provider state. -/
theorem offline_queue_bound_drop_oldest_witness :
    refSockOpen (initConnState "tok") = false ∧
    ((List.range 101).map (fun i => (Payload.pstr (toString i), (i : Int)))).length >
      MAX_OFFLINE_QUEUE ∧
    (sendSeq (initConnState "tok")
        ((List.range 101).map (fun i => (Payload.pstr (toString i), (i : Int))))).offlineQueue =
      (((List.range 101).map (fun i => (Payload.pstr (toString i), (i : Int)))).map
        (fun pi => ({ payload := pi.1, enqueuedAt := pi.2 } : QueueEntry))).drop
        (((List.range 101).map (fun i => (Payload.pstr (toString i), (i : Int)))).length -
          MAX_OFFLINE_QUEUE) :=
  ⟨rfl, by decide,
    (offline_queue_bound_drop_oldest (initConnState "tok")
      ((List.range 101).map (fun i => (Payload.pstr (toString i), (i : Int))))
      rfl (by decide) (by decide) (by decide)).1⟩

/-- C10: an enqueuing `send` on an apparently-open socket whose transport
`send` throws does not report success: it falls through to the offline-queue
path, enqueues the payload under the capacity bound, returns
`\x7b ok: false, queued: true \x7d`, and nothing reaches the wire. -/
theorem send_transport_throw_falls_back_to_queue
    (st : ConnState) (p : Payload) (m : String) (now : Int) (sock : SocketM)
    (hsock : st.sockRef = some sock)
    (hready : sock.readyState = WEBSOCKET_READY_STATE_OPEN)
    (hthrow : sock.outcomes.headD true = false)
    (hm : toSocketMessage p = some m) :
    (sendRealtimeMessage st p true now).1 =
      { ok := false, queued := true, error := none } ∧
    (sendRealtimeMessage st p true now).2.offlineQueue =
      (if st.offlineQueue.length ≥ MAX_OFFLINE_QUEUE then st.offlineQueue.tail
       else st.offlineQueue) ++ [{ payload := p, enqueuedAt := now }] ∧
    (sendRealtimeMessage st p true now).2.sentLog = st.sentLog := by
  have hopen : refSockOpen st = true := by
    unfold refSockOpen
    rw [hsock]
    simp [hready]
  unfold sendRealtimeMessage
  rw [hm]
  simp only [hopen, if_true]
  unfold sockSendViaRef
  rw [hsock]
  simp only [hthrow, Bool.false_eq_true, if_false, Bool.not_true]
  by_cases hcap : st.offlineQueue.length ≥ MAX_OFFLINE_QUEUE
  · simp only [if_pos hcap, updateRt]
    by_cases hmt : st.mounted <;> simp [hmt]
  · simp only [if_neg hcap, updateRt]
    by_cases hmt : st.mounted <;> simp [hmt]

/-- Witness for C10: a fresh state with an open socket whose first transport
send throws. -/
theorem send_transport_throw_falls_back_to_queue_witness :
    ({ initConnState "tok" with
        sockRef := some { sid := 1, readyState := 1, outcomes := [false] } } :
      ConnState).sockRef = some { sid := 1, readyState := 1, outcomes := [false] } ∧
    (sendRealtimeMessage
      { initConnState "tok" with
        sockRef := some { sid := 1, readyState := 1, outcomes := [false] } }
      (Payload.pstr "hola") true 42).1 =
      { ok := false, queued := true, error := none } :=
  ⟨rfl,
    (send_transport_throw_falls_back_to_queue
      { initConnState "tok" with
        sockRef := some { sid := 1, readyState := 1, outcomes := [false] } }
      (Payload.pstr "hola") "hola" 42
      { sid := 1, readyState := 1, outcomes := [false] }
      rfl rfl rfl rfl).1⟩

/-!
## C4 — flush prefix preservation
-/

theorem updateRt_offlineQueue (st : ConnState) (f : RtInfo → RtInfo) :
    (updateRt st f).offlineQueue = st.offlineQueue := by
  unfold updateRt
  by_cases h : st.mounted <;> simp [h]

theorem updateRt_sentLog (st : ConnState) (f : RtInfo → RtInfo) :
    (updateRt st f).sentLog = st.sentLog := by
  unfold updateRt
  by_cases h : st.mounted <;> simp [h]

theorem updateRt_reconnectAttempts (st : ConnState) (f : RtInfo → RtInfo) :
    (updateRt st f).reconnectAttempts = st.reconnectAttempts := by
  unfold updateRt
  by_cases h : st.mounted <;> simp [h]

theorem updateRt_scheduledDelays (st : ConnState) (f : RtInfo → RtInfo) :
    (updateRt st f).scheduledDelays = st.scheduledDelays := by
  unfold updateRt
  by_cases h : st.mounted <;> simp [h]

/-- How many of the next `n` sends succeed before the first throwing one,
per the socket's outcome oracle (an exhausted oracle means success). -/
def sendOkCount (outs : List Bool) : Nat → Nat
  | 0 => 0
  | n + 1 => if outs.headD true then sendOkCount outs.tail n + 1 else 0

theorem flushLoop_char :
    ∀ (q : List QueueEntry) (st : ConnState) (sock : SocketM),
      st.sockRef = some sock →
      (∀ it ∈ q, (toSocketMessage it.payload).isSome) →
      (flushLoop q st).1 = q.drop (sendOkCount sock.outcomes q.length) ∧
      (flushLoop q st).2.sentLog = st.sentLog ++
        (q.take (sendOkCount sock.outcomes q.length)).map
          (fun it => (toSocketMessage it.payload).getD "") ∧
      (flushLoop q st).2.offlineQueue = st.offlineQueue := by
  intro q
  induction q with
  | nil =>
    intro st sock _ _
    simp [flushLoop, sendOkCount]
  | cons item rest ih =>
    intro st sock hsock hser
    obtain ⟨m, hm⟩ :=
      Option.isSome_iff_exists.mp (hser item (List.mem_cons_self item rest))
    have hserr : ∀ it ∈ rest, (toSocketMessage it.payload).isSome :=
      fun it hit => hser it (List.mem_cons_of_mem item hit)
    simp only [flushLoop, hm]
    unfold sockSendViaRef
    rw [hsock]
    simp only [List.length_cons, sendOkCount]
    cases hok : sock.outcomes.headD true
    · simp only [Bool.false_eq_true, if_false]
      simp [List.drop_zero, List.take_zero]
    · simp only [if_true]
      have hrec := ih { st with sockRef := some { sock with outcomes := sock.outcomes.tail },
                                sentLog := st.sentLog ++ [m] }
        { sock with outcomes := sock.outcomes.tail } rfl hserr
      refine ⟨?_, ?_, ?_⟩
      · rw [hrec.1]
        rw [List.drop_succ_cons]
      · rw [hrec.2.1]
        simp only [List.take_succ_cons, List.map_cons, hm, Option.getD_some,
          List.append_assoc, List.singleton_append]
      · rw [hrec.2.2]

/-- C4: over an open transport, `flushOfflineQueue` sends queued items in FIFO
order: the longest all-successful prefix (per the transport oracle) goes to
the wire in original order, and the remaining queue is exactly the original
suffix starting at the first item whose send failed — that failed item and
everything after it stay queued in order, with no reordering and no loss. -/
theorem flush_sends_fifo_prefix_and_requeues_suffix
    (st : ConnState) (sock : SocketM)
    (hsock : st.sockRef = some sock)
    (hready : sock.readyState = WEBSOCKET_READY_STATE_OPEN)
    (hser : ∀ it ∈ st.offlineQueue, (toSocketMessage it.payload).isSome) :
    (flushOfflineQueue st).offlineQueue =
      st.offlineQueue.drop (sendOkCount sock.outcomes st.offlineQueue.length) ∧
    (flushOfflineQueue st).sentLog = st.sentLog ++
      (st.offlineQueue.take (sendOkCount sock.outcomes st.offlineQueue.length)).map
        (fun it => (toSocketMessage it.payload).getD "") := by
  have hopen : refSockOpen st = true := by
    unfold refSockOpen
    rw [hsock]
    simp [hready]
  unfold flushOfflineQueue
  rw [hopen]
  simp only [Bool.not_true, Bool.false_eq_true, if_false]
  by_cases hq : st.offlineQueue = []
  · rw [if_pos hq]
    constructor
    · rw [updateRt_offlineQueue, hq]
      simp [sendOkCount]
    · rw [updateRt_sentLog, hq]
      simp [sendOkCount]
  · rw [if_neg hq]
    have hchar := flushLoop_char st.offlineQueue st sock hsock hser
    refine ⟨?_, ?_⟩
    · rw [updateRt_offlineQueue]
      exact hchar.1
    · rw [updateRt_sentLog]
      exact hchar.2.1

/-- Witness for C4: a three-item queue over a socket whose second send
throws — one item is sent, the failed item and its successor stay queued. -/
theorem flush_sends_fifo_prefix_and_requeues_suffix_witness :
    (({ initConnState "tok" with
        sockRef := some { sid := 1, readyState := 1, outcomes := [true, false] },
        offlineQueue :=
          [{ payload := Payload.pstr "a", enqueuedAt := 1 },
           { payload := Payload.pstr "b", enqueuedAt := 2 },
           { payload := Payload.pstr "c", enqueuedAt := 3 }] } : ConnState).sockRef =
      some { sid := 1, readyState := 1, outcomes := [true, false] }) ∧
    (flushOfflineQueue
      { initConnState "tok" with
        sockRef := some { sid := 1, readyState := 1, outcomes := [true, false] },
        offlineQueue :=
          [{ payload := Payload.pstr "a", enqueuedAt := 1 },
           { payload := Payload.pstr "b", enqueuedAt := 2 },
           { payload := Payload.pstr "c", enqueuedAt := 3 }] }).offlineQueue =
      [{ payload := Payload.pstr "b", enqueuedAt := 2 },
       { payload := Payload.pstr "c", enqueuedAt := 3 }] := by
  constructor
  · rfl
  · have h := (flush_sends_fifo_prefix_and_requeues_suffix
      { initConnState "tok" with
        sockRef := some { sid := 1, readyState := 1, outcomes := [true, false] },
        offlineQueue :=
          [{ payload := Payload.pstr "a", enqueuedAt := 1 },
           { payload := Payload.pstr "b", enqueuedAt := 2 },
           { payload := Payload.pstr "c", enqueuedAt := 3 }] }
      { sid := 1, readyState := 1, outcomes := [true, false] }
      rfl rfl (by decide)).1
    rw [h]
    decide

/-!
## C2 — reconnect backoff
-/

theorem updateRt_manualDisconnect (st : ConnState) (f : RtInfo → RtInfo) :
    (updateRt st f).manualDisconnect = st.manualDisconnect := by
  unfold updateRt
  by_cases h : st.mounted <;> simp [h]

theorem updateRt_jwt (st : ConnState) (f : RtInfo → RtInfo) :
    (updateRt st f).jwt = st.jwt := by
  unfold updateRt
  by_cases h : st.mounted <;> simp [h]

theorem sockSendViaRef_reconnectAttempts (st : ConnState) (m : String) (b : Bool)
    (st' : ConnState) (h : sockSendViaRef st m = (b, st')) :
    st'.reconnectAttempts = st.reconnectAttempts := by
  unfold sockSendViaRef at h
  cases hs : st.sockRef <;> rw [hs] at h
  · injection h with h1 h2
    rw [← h2]
  · dsimp only at h
    split at h <;>
    · injection h with h1 h2
      rw [← h2]

theorem sendPing_reconnectAttempts (sid : Nat) (now : Int) (st : ConnState) :
    (sendPing sid now st).reconnectAttempts = st.reconnectAttempts := by
  unfold sendPing
  cases hs : st.sockRef
  · rfl
  · dsimp only
    split
    · split
      next st' heq =>
        have h1 := sockSendViaRef_reconnectAttempts _ _ _ _ heq
        exact h1
      next st' heq =>
        have h1 := sockSendViaRef_reconnectAttempts _ _ _ _ heq
        exact h1
    · rfl

theorem startHeartbeat_reconnectAttempts (sid : Nat) (now : Int) (st : ConnState) :
    (startHeartbeat sid now st).reconnectAttempts = st.reconnectAttempts := by
  unfold startHeartbeat clearHeartbeatTimers
  dsimp only
  split
  · rw [sendPing_reconnectAttempts]
  · rfl

theorem flushLoop_reconnectAttempts (q : List QueueEntry) :
    ∀ (st : ConnState), ((flushLoop q st).2).reconnectAttempts = st.reconnectAttempts := by
  induction q with
  | nil => intro st; rfl
  | cons item rest ih =>
    intro st
    unfold flushLoop
    cases hm : toSocketMessage item.payload
    · exact ih st
    · dsimp only
      split
      next st' heq =>
        rw [ih st']
        have h1 := sockSendViaRef_reconnectAttempts _ _ _ _ heq
        exact h1
      next st' heq =>
        have h1 := sockSendViaRef_reconnectAttempts _ _ _ _ heq
        exact h1

theorem flushOfflineQueue_reconnectAttempts (st : ConnState) :
    (flushOfflineQueue st).reconnectAttempts = st.reconnectAttempts := by
  unfold flushOfflineQueue
  split
  · rfl
  · split
    · rw [updateRt_reconnectAttempts]
    · dsimp only
      rw [updateRt_reconnectAttempts]
      exact flushLoop_reconnectAttempts st.offlineQueue st

theorem dispatchRealtimeEvent_reconnectAttempts (st : ConnState) (ev : RtEvent) :
    (dispatchRealtimeEvent st ev).reconnectAttempts = st.reconnectAttempts := by
  unfold dispatchRealtimeEvent
  dsimp only
  rw [updateRt_reconnectAttempts]

theorem setRefReadyState_mounted (st : ConnState) (sid v : Nat) :
    (setRefReadyState st sid v).mounted = st.mounted := by
  unfold setRefReadyState
  cases hs : st.sockRef
  · rfl
  · dsimp only
    split <;> rfl

theorem setRefReadyState_attemptRef (st : ConnState) (sid v : Nat) :
    (setRefReadyState st sid v).attemptRef = st.attemptRef := by
  unfold setRefReadyState
  cases hs : st.sockRef
  · rfl
  · dsimp only
    split <;> rfl

/-- One automatic-retry cycle as far as the backoff bookkeeping is concerned:
the pending reconnect timer fires (clearing itself, part_011 line
`reconnectTimeoutRef.current = null`), the retried attempt fails, and its
failure path calls `scheduleReconnect` again.  The intervening failed attempt
touches neither the attempt counter (it is not a manual connect) nor the
delay computation. -/
def reconnectRetryStep (reason : Option String) (s : ConnState) : ConnState :=
  scheduleReconnect reason { s with reconnectTimer := none }

/-- `N` consecutive scheduled reconnect attempts with no intervening
successful open or manual reconnect. -/
def reconnectSeq (reason : Option String) : Nat → ConnState → ConnState
  | 0, s => s
  | n + 1, s => reconnectRetryStep reason (reconnectSeq reason n s)

theorem reconnectSeq_invariants (reason : Option String) (s0 : ConnState)
    (h0 : s0.reconnectAttempts = 0) (hd : s0.scheduledDelays = [])
    (hm : s0.manualDisconnect = false) (hj : s0.jwt ≠ "") :
    ∀ N, (reconnectSeq reason N s0).reconnectAttempts = N ∧
      (reconnectSeq reason N s0).scheduledDelays =
        (List.range N).map (fun i =>
          min RECONNECT_MAX_DELAY_MS (RECONNECT_INITIAL_DELAY_MS * 2 ^ i)) ∧
      (reconnectSeq reason N s0).manualDisconnect = false ∧
      (reconnectSeq reason N s0).jwt = s0.jwt := by
  intro N
  induction N with
  | zero => exact ⟨h0, by simp [reconnectSeq, hd], hm, rfl⟩
  | succ n ih =>
    obtain ⟨iha, ihdel, ihm, ihj⟩ := ih
    have hstep : reconnectSeq reason (n + 1) s0 =
        scheduleReconnect reason
          { reconnectSeq reason n s0 with reconnectTimer := none } := rfl
    set sn := reconnectSeq reason n s0 with hsn
    set s' : ConnState := { sn with reconnectTimer := none } with hs'
    have hguard : ¬(s'.manualDisconnect = true ∨ s'.jwt = "") := by
      intro hor
      rcases hor with h | h
      · rw [show s'.manualDisconnect = sn.manualDisconnect from rfl, ihm] at h
        exact Bool.false_ne_true h
      · rw [show s'.jwt = sn.jwt from rfl, ihj] at h
        exact hj h
    have htimer : s'.reconnectTimer.isSome = false := rfl
    rw [hstep]
    unfold scheduleReconnect
    rw [if_neg (by
      intro hor
      exact hguard (by
        rcases hor with h | h
        · exact Or.inl (by rw [h])
        · exact Or.inr h))]
    rw [if_neg (by rw [htimer]; exact Bool.false_ne_true)]
    have hattempts : s'.reconnectAttempts = n := iha
    refine ⟨?_, ?_, ?_, ?_⟩
    · dsimp only
      rw [updateRt_reconnectAttempts]
      dsimp only
      rw [hattempts]
    · dsimp only
      rw [updateRt_scheduledDelays]
      dsimp only
      rw [show s'.scheduledDelays = sn.scheduledDelays from rfl, ihdel, hattempts]
      rw [List.range_succ, List.map_append, List.map_cons, List.map_nil]
      simp only [Nat.add_sub_cancel, Nat.zero_max]
    · dsimp only
      rw [updateRt_manualDisconnect]
      dsimp only
      rw [show s'.manualDisconnect = sn.manualDisconnect from rfl, ihm]
    · dsimp only
      rw [updateRt_jwt]
      dsimp only
      rw [show s'.jwt = sn.jwt from rfl, ihj]

/-- C2: over `N` scheduled reconnect attempts with no intervening successful
open or manual reconnect, the delay scheduled for attempt `k` (1-based) is
`min(RECONNECT_MAX_DELAY_MS, RECONNECT_INITIAL_DELAY_MS * 2^(k-1))` and the
attempt counter is incremented on every scheduled retry (first conjunct);
the delay formula is non-decreasing in the attempt number and capped at the
configured maximum (second and third conjuncts); and a successful open —
`socket.onopen` of the current attempt — resets the counter to zero
(fourth conjunct). -/
theorem reconnect_backoff_schedule
    (s0 : ConnState) (reason : Option String)
    (h0 : s0.reconnectAttempts = 0) (hd : s0.scheduledDelays = [])
    (hm : s0.manualDisconnect = false) (hj : s0.jwt ≠ "") :
    (∀ N, (reconnectSeq reason N s0).scheduledDelays =
        (List.range N).map (fun i =>
          min RECONNECT_MAX_DELAY_MS (RECONNECT_INITIAL_DELAY_MS * 2 ^ i)) ∧
      (reconnectSeq reason N s0).reconnectAttempts = N) ∧
    (∀ i j, i ≤ j →
      min RECONNECT_MAX_DELAY_MS (RECONNECT_INITIAL_DELAY_MS * 2 ^ i) ≤
        min RECONNECT_MAX_DELAY_MS (RECONNECT_INITIAL_DELAY_MS * 2 ^ j)) ∧
    (∀ i, min RECONNECT_MAX_DELAY_MS (RECONNECT_INITIAL_DELAY_MS * 2 ^ i) ≤
      RECONNECT_MAX_DELAY_MS) ∧
    (∀ (st : ConnState) (a sid : Nat) (reg : Option FM) (now : Int),
      st.mounted = true → st.attemptRef = a →
      (cbOpen a sid reg now st).reconnectAttempts = 0) := by
  refine ⟨?_, ?_, ?_, ?_⟩
  · intro N
    have h := reconnectSeq_invariants reason s0 h0 hd hm hj N
    exact ⟨h.2.1, h.1⟩
  · intro i j hij
    exact min_le_min (le_refl _)
      (Nat.mul_le_mul_left _ (Nat.pow_le_pow_right (by decide) hij))
  · intro i
    exact min_le_left _ _
  · intro st a sid reg now hmnt hatt
    unfold cbOpen
    rw [if_neg (by
      intro hor
      rcases hor with h | h
      · rw [setRefReadyState_mounted, hmnt] at h
        simp at h
      · exact h (by rw [setRefReadyState_attemptRef, hatt]))]
    rw [dispatchRealtimeEvent_reconnectAttempts, flushOfflineQueue_reconnectAttempts,
      startHeartbeat_reconnectAttempts, updateRt_reconnectAttempts]

/-- Witness for C2: seven scheduled retries from a fresh state yield the
doubling, capped delays, and a current-attempt open resets the counter. -/
theorem reconnect_backoff_schedule_witness :
    (initConnState "tok").reconnectAttempts = 0 ∧
    (reconnectSeq (some "boom") 7 (initConnState "tok")).scheduledDelays =
      [1000, 2000, 4000, 8000, 16000, 30000, 30000] ∧
    (cbOpen 0 1 none 5 (initConnState "tok")).reconnectAttempts = 0 := by
  refine ⟨rfl, ?_, ?_⟩
  · have h := (reconnect_backoff_schedule (initConnState "tok") (some "boom")
      rfl rfl rfl (by decide)).1 7
    rw [h.1]
    decide
  · exact (reconnect_backoff_schedule (initConnState "tok") (some "boom")
      rfl rfl rfl (by decide)).2.2.2 (initConnState "tok") 0 1 none 5 rfl rfl

/-!
## C5 — propagation policy
-/

/-- Counterexample to C5 as stated: `ensureConnection`/`connect` (the
`openSocket` promise) does not always settle without rejecting — on a non-2xx
handshake response the `catch` block re-throws (`throw error`), so the call
rejects with the handshake error. -/
theorem ensureConnection_rejects_on_handshake_failure :
    (openSocketHandshake 1 (HandshakeOutcome.httpFail 500 none) 50
      (openSocketBegin false (initConnState "tok")).2).2 =
      Except.error "Error al registrar la conexión (HTTP 500)" := rfl

/-- C5 (amended): `send` never throws — a serialization failure returns the
documented result object with the state untouched (first conjunct); a
successful handshake continuation returns normally (second conjunct); but a
failed handshake makes `ensureConnection`/`connect` reject with the error
message, while the failure is also recorded as state (`websocketStatus`,
`lastError`), published as a `connection.error` event, and fed to the
reconnect schedule (third conjunct). -/
theorem no_throw_policy_amended :
    (∀ (st : ConnState) (p : Payload) (enq : Bool) (now : Int),
      toSocketMessage p = none →
      sendRealtimeMessage st p enq now =
        ({ ok := false, queued := false, error := some "serialization-error" }, st)) ∧
    (∀ (st : ConnState) (a : Nat) (reg : Option FM) (outs : List Bool) (now : Int),
      ∃ sid, (openSocketHandshake a (HandshakeOutcome.success reg outs) now st).2 =
        Except.ok (some sid)) ∧
    (∀ (st : ConnState) (a status : Nat) (reg : Option FM) (now : Int),
      st.mounted = true → st.attemptRef = a → st.manualDisconnect = false →
      st.jwt ≠ "" → st.reconnectTimer = none →
      (openSocketHandshake a (HandshakeOutcome.httpFail status reg) now st).2 =
        Except.error (handshakeFailDetail status reg) ∧
      (openSocketHandshake a (HandshakeOutcome.httpFail status reg) now
        st).1.websocketStatus = "error" ∧
      (openSocketHandshake a (HandshakeOutcome.httpFail status reg) now
        st).1.rt.lastError = some (handshakeFailDetail status reg) ∧
      ((openSocketHandshake a (HandshakeOutcome.httpFail status reg) now
        st).1.rt.lastEvent.map (fun e => e.type)) = some "connection.error" ∧
      (openSocketHandshake a (HandshakeOutcome.httpFail status reg) now
        st).1.reconnectTimer.isSome = true) := by
  refine ⟨?_, ?_, ?_⟩
  · intro st p enq now hser
    unfold sendRealtimeMessage
    rw [hser]
  · intro st a reg outs now
    unfold openSocketHandshake
    exact ⟨_, rfl⟩
  · intro st a status reg now hmnt hatt hman hjwt htimer
    have htrim : jsTrim "connection.error" = "connection.error" := by decide
    unfold openSocketHandshake openSocketCatch dispatchRealtimeEvent
      scheduleReconnect updateRt
    simp only [hmnt, hatt, and_self, if_pos, true_and, if_true, hman, htimer]
    simp [hjwt, htrim]

/-- Witness for C5's amended theorem at concrete inputs. -/
theorem no_throw_policy_amended_witness :
    toSocketMessage Payload.punser = none ∧
    sendRealtimeMessage (initConnState "tok") Payload.punser true 7 =
      ({ ok := false, queued := false, error := some "serialization-error" },
        initConnState "tok") ∧
    (openSocketHandshake 1 (HandshakeOutcome.httpFail 403 none) 50
      { initConnState "tok" with connectingRef := true, attemptRef := 1 }).2 =
      Except.error (handshakeFailDetail 403 none) :=
  ⟨rfl,
    no_throw_policy_amended.1 (initConnState "tok") Payload.punser true 7 rfl,
    (no_throw_policy_amended.2.2
      { initConnState "tok" with connectingRef := true, attemptRef := 1 }
      1 403 none 50 rfl rfl rfl (by decide) rfl).1⟩

/-!
## C1 — attempt fencing
-/

/-- C1 (failing scenario): attempt A (id 1) starts and its handshake is left
pending; `disconnect()` supersedes it (advancing the attempt id) and a manual
`connect()` starts attempt B (id 3); B's handshake succeeds, its socket
(id 1) opens and the state reflects B (`status: open`).  Then A's stale
handshake response resolves successfully.  Every guarded update of A is
correctly fenced — the status stays `open` and the React socket state stays
B's socket — but the unguarded `new WebSocket(...)`/`websocketRef.current =
socket` lines of the handshake continuation run anyway: the final
`websocketRef` holds A's freshly created socket (id 2, still CONNECTING),
no longer B's open socket.  A stale attempt's callback has mutated the
connection state, contradicting the fencing claim. -/
theorem stale_handshake_overwrites_socket_reference :
    (let s0 := initConnState "tok"
     let beginA := openSocketBegin true s0
     let afterDisc := disconnectWebsocket beginA.2
     let beginB := openSocketBegin true afterDisc
     let afterHsB := (openSocketHandshake 3
       (HandshakeOutcome.success (some [("session", Val.vstr "s")]) []) 100 beginB.2).1
     let afterOpenB := cbOpen 3 1 (some [("session", Val.vstr "s")]) 110 afterHsB
     let final := (openSocketHandshake 1
       (HandshakeOutcome.success (some [("session", Val.vstr "a")]) []) 120 afterOpenB).1
     beginA.1 = BeginKind.proceed 1 ∧
     beginB.1 = BeginKind.proceed 3 ∧
     afterOpenB.rt.status = "open" ∧
     (afterOpenB.sockRef.map (fun s => (s.sid, s.readyState))) = some (1, 1) ∧
     final.rt.status = "open" ∧
     final.websocket = some 1 ∧
     (final.sockRef.map (fun s => (s.sid, s.readyState))) = some (2, 0)) := by
  decide

/-!
## C6 — control-frame interception
-/

/-- Counterexample to C6 as stated: after answering an inbound ping, the code
still dispatches the frame on the event bus under its literal `ping` type, so
a subscriber registered for the `ping` type receives it (and the pong answer
echoing the ping id goes to the wire). -/
theorem ping_frame_forwarded_to_ping_subscribers :
    (let st := { initConnState "tok" with
        listeners := [("ping", [7])],
        sockRef := some { sid := 1, readyState := 1, outcomes := [] } }
     let frame : InboundFrame :=
       { rawText := "\x7b\"type\":\"ping\",\"ping_id\":\"abc\"\x7d",
         parsed := some { fields := [("type", Val.vstr "ping"),
                                     ("ping_id", Val.vstr "abc")],
                          payloadObj := none } }
     ((handleIncomingMessage st frame 500).invocationLog.map
        (fun p => (p.1, p.2.type))) = [(7, "ping")] ∧
     (handleIncomingMessage st frame 500).sentLog =
       ["\x7b\"type\":\"system.pong\",\"ping_id\":\"abc\",\"client_timestamp\":500\x7d"]) := by
  decide

/-- C6 (amended): an inbound frame resolving to `pong`/`system.pong` is
handled by the heartbeat logic (`handlePong`: timeout cleared, latency and
liveness updated) and then dispatched; one resolving to `ping`/`system.ping`
is answered immediately with a non-enqueued pong echoing any provided (truthy)
ping id, and then dispatched.  Dispatching records the frame as `lastEvent`
and delivers it to the subscribers of its literal (control) type and to
wildcard subscribers — control frames are still forwarded on the bus, not
suppressed. -/
theorem control_frame_interception_amended :
    (∀ (st : ConnState) (frame : InboundFrame) (now : Int),
      st.mounted = true →
      (jsToLower (resolveEventType frame) = "pong" ∨
        jsToLower (resolveEventType frame) = "system.pong") →
      handleIncomingMessage st frame now =
        dispatchRealtimeEvent
          (handlePong { st with websocketLastMessage := some frame.rawText } now)
          { type := resolveEventType frame, payload := inboundEvPayload frame,
            raw := some frame.rawText, receivedAt := now }) ∧
    (∀ (st : ConnState) (frame : InboundFrame) (now : Int),
      st.mounted = true →
      (jsToLower (resolveEventType frame) = "ping" ∨
        jsToLower (resolveEventType frame) = "system.ping") →
      handleIncomingMessage st frame now =
        dispatchRealtimeEvent
          ((sendRealtimeMessage { st with websocketLastMessage := some frame.rawText }
            (Payload.pobj (pongAnswerFM (extractPingId frame) now)) false now).2)
          { type := resolveEventType frame, payload := inboundEvPayload frame,
            raw := some frame.rawText, receivedAt := now }) ∧
    (∀ (st : ConnState) (ev : RtEvent), st.mounted = true →
      (dispatchRealtimeEvent st ev).rt.lastEvent =
        some { type := if jsTrim ev.type ≠ "" then jsTrim ev.type else "message",
               payload := ev.payload, raw := ev.raw, receivedAt := ev.receivedAt } ∧
      (dispatchRealtimeEvent st ev).invocationLog =
        st.invocationLog ++
          (listenersFor st (if jsTrim ev.type ≠ "" then jsTrim ev.type else "message")).map
            (fun h => (h,
              ({ type := if jsTrim ev.type ≠ "" then jsTrim ev.type else "message",
                 payload := ev.payload, raw := ev.raw,
                 receivedAt := ev.receivedAt } : RtEvent))) ++
          (listenersFor st "*").map
            (fun h => (h,
              ({ type := if jsTrim ev.type ≠ "" then jsTrim ev.type else "message",
                 payload := ev.payload, raw := ev.raw,
                 receivedAt := ev.receivedAt } : RtEvent)))) := by
  refine ⟨?_, ?_, ?_⟩
  · intro st frame now hmnt htype
    unfold handleIncomingMessage
    rw [hmnt]
    simp only [Bool.not_true, Bool.false_eq_true, if_false, if_true]
    rw [if_pos htype]
  · intro st frame now hmnt htype
    unfold handleIncomingMessage
    rw [hmnt]
    simp only [Bool.not_true, Bool.false_eq_true, if_false, if_true]
    rw [if_neg (by
      rcases htype with h | h <;> rw [h] <;> intro hor <;>
        rcases hor with hc | hc <;> simp at hc)]
    rw [if_pos htype]
  · intro st ev hmnt
    unfold dispatchRealtimeEvent listenersFor updateRt
    rw [hmnt]
    constructor
    · simp only [if_true]
    · simp only [if_true, List.append_assoc]

/-- Witness for C6's amended theorem at a concrete bare `pong` text frame. -/
theorem control_frame_interception_amended_witness :
    jsToLower (resolveEventType { rawText := "pong", parsed := none }) = "pong" ∧
    handleIncomingMessage (initConnState "x") { rawText := "pong", parsed := none } 9 =
      dispatchRealtimeEvent
        (handlePong { initConnState "x" with websocketLastMessage := some "pong" } 9)
        { type := resolveEventType { rawText := "pong", parsed := none },
          payload := inboundEvPayload { rawText := "pong", parsed := none },
          raw := some "pong", receivedAt := 9 } :=
  ⟨by decide,
    control_frame_interception_amended.1 (initConnState "x")
      { rawText := "pong", parsed := none } 9 rfl (Or.inl (by decide))⟩

/-!
## C8 — merge idempotence
-/

theorem option_getD_congr {α : Type} (o : Option α) (h : o.isSome) (d₁ d₂ : α) :
    o.getD d₁ = o.getD d₂ := by
  obtain ⟨k, hk⟩ := Option.isSome_iff_exists.mp h
  rw [hk]
  rfl

theorem attFold_fresh (A : List FM) :
    ∀ (m : List (String × FM)),
      (A.map toAttachmentKey).Nodup →
      (∀ a ∈ A, m.find? (fun e => e.1 == toAttachmentKey a) = none) →
      A.foldl attAppend m = m ++ A.map (fun a => (toAttachmentKey a, a)) := by
  induction A with
  | nil => intro m _ _; simp
  | cons a rest ih =>
    intro m hnd hdisj
    have hnone := hdisj a (List.mem_cons_self a rest)
    have hstep : attAppend m a = m ++ [(toAttachmentKey a, a)] := by
      unfold attAppend
      dsimp only
      rw [hnone]
      simp [spreadFM_nil_left]
    rw [List.foldl_cons, hstep]
    rw [List.map_cons, List.nodup_cons] at hnd
    have hdisj' : ∀ b ∈ rest,
        (m ++ [(toAttachmentKey a, a)]).find? (fun e => e.1 == toAttachmentKey b) =
          none := by
      intro b hb
      rw [List.find?_append, hdisj b (List.mem_cons_of_mem a hb)]
      have hne : toAttachmentKey a ≠ toAttachmentKey b := by
        intro h
        exact hnd.1 (h ▸ List.mem_map_of_mem toAttachmentKey hb)
      simp [List.find?, beq_eq_false_iff_ne.mpr hne]
    rw [ih (m ++ [(toAttachmentKey a, a)]) hnd.2 hdisj']
    simp [List.append_assoc]

theorem entry_eq_of_nodup_keys {β : Type} (m : List (String × β))
    (hnd : (m.map Prod.fst).Nodup) (e f : String × β)
    (he : e ∈ m) (hf : f ∈ m) (hkey : e.1 = f.1) : e = f := by
  have h1 := find?_eq_of_nodup_keys m e hnd he
  have h2 := find?_eq_of_nodup_keys m f hnd hf
  rw [hkey] at h1
  rw [h1] at h2
  exact Option.some.inj h2

theorem attFold_update_self (A : List FM) :
    ∀ (m : List (String × FM)),
      (m.map Prod.fst).Nodup →
      (∀ a ∈ A, (toAttachmentKey a, a) ∈ m) →
      (∀ a ∈ A, (a.map Prod.fst).Nodup) →
      A.foldl attAppend m = m := by
  induction A with
  | nil => intro m _ _ _; rfl
  | cons a rest ih =>
    intro m hmnd hmem hfld
    have hamem := hmem a (List.mem_cons_self a rest)
    have hfind : m.find? (fun e => e.1 == toAttachmentKey a) =
        some (toAttachmentKey a, a) :=
      find?_eq_of_nodup_keys m (toAttachmentKey a, a) hmnd hamem
    have hstep : attAppend m a = m := by
      unfold attAppend
      dsimp only
      rw [hfind]
      simp only [Option.isSome_some, if_true]
      have hpt : ∀ e ∈ m,
          (if e.1 == toAttachmentKey a then (e.1, spreadFM e.2 a) else e) = id e := by
        intro e he
        by_cases hk : e.1 = toAttachmentKey a
        · have he2 : e = (toAttachmentKey a, a) :=
            entry_eq_of_nodup_keys m hmnd e (toAttachmentKey a, a) he hamem hk
          rw [if_pos (beq_iff_eq.mpr hk), he2]
          simp [spreadFM_self a (hfld a (List.mem_cons_self a rest))]
        · rw [if_neg (by simp [hk])]
          rfl
      rw [List.map_congr_left hpt, List.map_id]
    rw [List.foldl_cons, hstep]
    exact ih m hmnd (fun b hb => hmem b (List.mem_cons_of_mem a hb))
      (fun b hb => hfld b (List.mem_cons_of_mem a hb))

/-- When an attachment list has pairwise-distinct attachment keys and
well-formed (duplicate-free) field lists, unioning it with itself is the
identity. -/
theorem mergeAttachmentLists_self (A : List FM)
    (hnd : (A.map toAttachmentKey).Nodup)
    (hfld : ∀ a ∈ A, (a.map Prod.fst).Nodup) :
    mergeAttachmentLists A A = A := by
  unfold mergeAttachmentLists
  rw [List.foldl_append]
  rw [attFold_fresh A [] hnd (by intro a _; rfl)]
  rw [List.nil_append]
  rw [attFold_update_self A (A.map (fun a => (toAttachmentKey a, a)))
    (by rw [List.map_map]; exact hnd)
    (by intro a ha; exact List.mem_map_of_mem _ ha)
    hfld]
  rw [List.map_map]
  exact List.map_id A

theorem option_orElse_self {α : Type} (o : Option α) :
    o.orElse (fun _ => o) = o := by
  cases o <;> rfl

/-- Merging a well-formed record with itself is the identity. -/
theorem mergeRawMsg_self (r : RawMsg)
    (hfld : (r.fields.map Prod.fst).Nodup)
    (hand : (r.attachmentsArr.map toAttachmentKey).Nodup)
    (hafld : ∀ a ∈ r.attachmentsArr, (a.map Prod.fst).Nodup) :
    mergeRawMsg r r = r := by
  unfold mergeRawMsg
  rw [spreadFM_self r.fields hfld, mergeAttachmentLists_self r.attachmentsArr hand hafld,
    option_orElse_self]

/-- The identity-key string of a record, valid when the record is keyed. -/
def msgKeyStr (r : RawMsg) : String :=
  (toMessageKey (normalizeMessageRecord r)).getD ""

theorem msgFold_fresh (L : List RawMsg) :
    ∀ (m : List (String × RawMsg)),
      (∀ r ∈ L, (toMessageKey (normalizeMessageRecord r)).isSome) →
      ((L.map msgKeyStr).Nodup) →
      (∀ r ∈ L, m.find? (fun e => e.1 == msgKeyStr r) = none) →
      L.foldl msgAppend m = m ++ L.map (fun r => (msgKeyStr r, normalizeMessageRecord r)) := by
  induction L with
  | nil => intro m _ _ _; simp
  | cons r rest ih =>
    intro m hkeyed hnd hdisj
    have hsome := hkeyed r (List.mem_cons_self r rest)
    have hkeyeq : (toMessageKey (normalizeMessageRecord r)).getD
        ("tmp:" ++ toString (m.length + 1)) = msgKeyStr r :=
      option_getD_congr _ hsome _ _
    have hnone := hdisj r (List.mem_cons_self r rest)
    have hstep : msgAppend m r = m ++ [(msgKeyStr r, normalizeMessageRecord r)] := by
      unfold msgAppend
      dsimp only
      rw [hkeyeq, hnone]
      rfl
    rw [List.foldl_cons, hstep]
    rw [List.map_cons, List.nodup_cons] at hnd
    have hdisj' : ∀ b ∈ rest,
        (m ++ [(msgKeyStr r, normalizeMessageRecord r)]).find?
          (fun e => e.1 == msgKeyStr b) = none := by
      intro b hb
      rw [List.find?_append, hdisj b (List.mem_cons_of_mem r hb)]
      have hne : msgKeyStr r ≠ msgKeyStr b := by
        intro h
        exact hnd.1 (h ▸ List.mem_map_of_mem msgKeyStr hb)
      simp [List.find?, beq_eq_false_iff_ne.mpr hne]
    rw [ih (m ++ [(msgKeyStr r, normalizeMessageRecord r)])
      (fun b hb => hkeyed b (List.mem_cons_of_mem r hb)) hnd.2 hdisj']
    simp [List.append_assoc]

theorem msgFold_update_self (L : List RawMsg) :
    ∀ (m : List (String × RawMsg)),
      (∀ r ∈ L, (toMessageKey (normalizeMessageRecord r)).isSome) →
      (m.map Prod.fst).Nodup →
      (∀ r ∈ L, (msgKeyStr r, normalizeMessageRecord r) ∈ m) →
      (∀ r ∈ L, mergeRawMsg (normalizeMessageRecord r) (normalizeMessageRecord r) =
        normalizeMessageRecord r) →
      L.foldl msgAppend m = m := by
  induction L with
  | nil => intro m _ _ _ _; rfl
  | cons r rest ih =>
    intro m hkeyed hmnd hmem hself
    have hsome := hkeyed r (List.mem_cons_self r rest)
    have hkeyeq : (toMessageKey (normalizeMessageRecord r)).getD
        ("tmp:" ++ toString (m.length + 1)) = msgKeyStr r :=
      option_getD_congr _ hsome _ _
    have hamem := hmem r (List.mem_cons_self r rest)
    have hfind : m.find? (fun e => e.1 == msgKeyStr r) =
        some (msgKeyStr r, normalizeMessageRecord r) :=
      find?_eq_of_nodup_keys m (msgKeyStr r, normalizeMessageRecord r) hmnd hamem
    have hstep : msgAppend m r = m := by
      unfold msgAppend
      dsimp only
      rw [hkeyeq, hfind]
      simp only [Option.isSome_some, if_true]
      have hpt : ∀ e ∈ m,
          (if e.1 == msgKeyStr r then (e.1, mergeRawMsg e.2 (normalizeMessageRecord r))
           else e) = id e := by
        intro e he
        by_cases hk : e.1 = msgKeyStr r
        · have he2 : e = (msgKeyStr r, normalizeMessageRecord r) :=
            entry_eq_of_nodup_keys m hmnd e (msgKeyStr r, normalizeMessageRecord r)
              he hamem hk
          rw [if_pos (beq_iff_eq.mpr hk), he2]
          simp [hself r (List.mem_cons_self r rest)]
        · rw [if_neg (by simp [hk])]
          rfl
      rw [List.map_congr_left hpt, List.map_id]
    rw [List.foldl_cons, hstep]
    exact ih m (fun b hb => hkeyed b (List.mem_cons_of_mem r hb)) hmnd
      (fun b hb => hmem b (List.mem_cons_of_mem r hb))
      (fun b hb => hself b (List.mem_cons_of_mem r hb))

/-- Counterexample to C8 as stated: a record with no identity material (no id
alias, no timestamp, no content) is keyed positionally (`tmp:map.size+1`), so
merging the one-element list containing it into itself yields two entries —
the re-registered record does not collapse onto itself. -/
theorem merge_identical_list_into_itself_duplicates_keyless :
    (mergeMessageArrays [⟨[], [], none⟩] [⟨[], [], none⟩]).length = 2 ∧
    (mergeMessageArrays [] [⟨[], [], none⟩]).length = 1 := by
  decide

theorem nodup_msgKeyStr (L : List RawMsg)
    (hkeyed : ∀ r ∈ L, (toMessageKey (normalizeMessageRecord r)).isSome)
    (hnd : (L.map (fun r => toMessageKey (normalizeMessageRecord r))).Nodup) :
    (L.map msgKeyStr).Nodup := by
  have heq : L.map (fun r => toMessageKey (normalizeMessageRecord r)) =
      (L.map msgKeyStr).map some := by
    rw [List.map_map]
    apply List.map_congr_left
    intro r hr
    obtain ⟨k, hk⟩ := Option.isSome_iff_exists.mp (hkeyed r hr)
    simp [Function.comp, msgKeyStr, hk]
  rw [heq] at hnd
  exact List.Nodup.of_map some hnd

/-- C8 (amended): for a message list whose records each carry an identity key,
with pairwise-distinct identity keys, whose normalized field lists and
normalized attachment lists are free of duplicate names/keys (as JS objects
and deduplicated attachment unions are), merging the list into itself yields
exactly the same identity keys and the same content as merging it once — no
duplicated entries.  (Records lacking identity material are keyed
positionally and duplicate on re-merge, per the counterexample.) -/
theorem merge_idempotent_on_keyed_lists
    (L : List RawMsg)
    (hkeyed : ∀ r ∈ L, (toMessageKey (normalizeMessageRecord r)).isSome)
    (hnd : (L.map (fun r => toMessageKey (normalizeMessageRecord r))).Nodup)
    (hfld : ∀ r ∈ L, ((normalizeMessageRecord r).fields.map Prod.fst).Nodup)
    (hand : ∀ r ∈ L,
      ((normalizeMessageRecord r).attachmentsArr.map toAttachmentKey).Nodup)
    (hafld : ∀ r ∈ L, ∀ a ∈ (normalizeMessageRecord r).attachmentsArr,
      (a.map Prod.fst).Nodup) :
    mergeMessageArrays L L = mergeMessageArrays [] L := by
  have hndS := nodup_msgKeyStr L hkeyed hnd
  have hM1 : L.foldl msgAppend [] =
      L.map (fun r => (msgKeyStr r, normalizeMessageRecord r)) :=
    msgFold_fresh L [] hkeyed hndS (fun r _ => rfl)
  have hself : ∀ r ∈ L,
      mergeRawMsg (normalizeMessageRecord r) (normalizeMessageRecord r) =
        normalizeMessageRecord r :=
    fun r hr => mergeRawMsg_self _ (hfld r hr) (hand r hr) (hafld r hr)
  have hM2 : (L ++ L).foldl msgAppend [] = L.foldl msgAppend [] := by
    rw [List.foldl_append, hM1]
    rw [msgFold_update_self L _ hkeyed
      (by rw [List.map_map]; exact hndS)
      (fun r hr => List.mem_map_of_mem _ hr)
      hself]
  unfold mergeMessageArrays
  rw [List.nil_append, hM2]

/-- Witness for C8's amended theorem at a concrete two-record list. -/
theorem merge_idempotent_on_keyed_lists_witness :
    (∀ r ∈ ([⟨[("message_id", Val.vnum 1), ("content", Val.vstr "hola")],
              [[("uuid", Val.vstr "u1")]], none⟩,
             ⟨[("message_id", Val.vnum 2), ("created_at", Val.vnum 9)], [],
              none⟩] : List RawMsg),
      (toMessageKey (normalizeMessageRecord r)).isSome) ∧
    mergeMessageArrays
      [⟨[("message_id", Val.vnum 1), ("content", Val.vstr "hola")],
        [[("uuid", Val.vstr "u1")]], none⟩,
       ⟨[("message_id", Val.vnum 2), ("created_at", Val.vnum 9)], [], none⟩]
      [⟨[("message_id", Val.vnum 1), ("content", Val.vstr "hola")],
        [[("uuid", Val.vstr "u1")]], none⟩,
       ⟨[("message_id", Val.vnum 2), ("created_at", Val.vnum 9)], [], none⟩] =
    mergeMessageArrays []
      [⟨[("message_id", Val.vnum 1), ("content", Val.vstr "hola")],
        [[("uuid", Val.vstr "u1")]], none⟩,
       ⟨[("message_id", Val.vnum 2), ("created_at", Val.vnum 9)], [], none⟩] :=
  ⟨by decide,
    merge_idempotent_on_keyed_lists
      [⟨[("message_id", Val.vnum 1), ("content", Val.vstr "hola")],
        [[("uuid", Val.vstr "u1")]], none⟩,
       ⟨[("message_id", Val.vnum 2), ("created_at", Val.vnum 9)], [], none⟩]
      (by decide) (by decide) (by decide) (by decide) (by decide)⟩
